import Mathlib

/-!
Verification development for the upload-multitool repository core:
shallow embeddings of the STK500 v1/v2, AVR109 and ESP bootloader
engines and of the dispatcher, with theorems settling the frozen
claims about them.  Bytes are modelled as natural numbers below 256,
buffers as lists of naturals, fallible operations as Except values.
-/

/-- Mirrors the clamping semantics of JavaScript Buffer.subarray(start, end)
for nonnegative start and end: elements from index start (inclusive) up to
end (exclusive), clamped to the buffer, empty when end is at most start. -/
def jsSubarray (l : List Nat) (s e : Nat) : List Nat :=
  (l.take e).drop s

namespace STK500

/-- Number of pages, mirroring new Array(Math.ceil(hex.length / pageSize))
in STK500v1.upload and STK500v2.upload (for positive pageSize). -/
def pagesCount (hexLen pageSize : Nat) : Nat :=
  (hexLen + pageSize - 1) / pageSize

/-- The page slice taken by both the upload and the verify loops of
STK500v1 (stk500-v1.ts lines 304 and 333) and STK500v2 (stk500-v2.ts
lines 393 and 424):
hex.subarray(pageaddr, hex.length greater than pageSize ? pageaddr plus
pageSize : hex.length minus 1) with pageaddr = i * pageSize. -/
def pageSlice (hex : List Nat) (pageSize i : Nat) : List Nat :=
  jsSubarray hex (i * pageSize)
    (if pageSize < hex.length then i * pageSize + pageSize else hex.length - 1)

/-- Concatenation of all page slices sent by the upload loop (equally, the
bytes the verify loop compares against), in page order. -/
def writtenBytes (hex : List Nat) (pageSize : Nat) : List Nat :=
  ((List.range (pagesCount hex.length pageSize)).map (pageSlice hex pageSize)).flatten

end STK500

namespace ESPLoader

/-- SLIP escaping of a byte stream, mirroring the body of ESPLoader.write:
0xC0 becomes 0xDB 0xDC and 0xDB becomes 0xDB 0xDD, all other bytes pass
through unchanged. -/
def slipEscape : List Nat → List Nat
  | [] => []
  | b :: rest =>
    (if b = 0xC0 then [0xDB, 0xDC]
     else if b = 0xDB then [0xDB, 0xDD]
     else [b]) ++ slipEscape rest

/-- The full SLIP frame written by ESPLoader.write: a 0xC0 delimiter, the
escaped payload, and a closing 0xC0 delimiter. -/
def slipEncode (data : List Nat) : List Nat :=
  0xC0 :: (slipEscape data ++ [0xC0])

/-- One pass of the for loop inside ESPLoader.read's handleChunk (flush
false): returns the decoded packet bytes accumulated by this chunk and the
final value of the started flag.  The loop breaks at the closing 0xC0,
discarding the remainder of the chunk; the escape flag starts false on
every chunk, exactly as in the source. -/
def slipChunkLoop (started inEscape : Bool) (acc : List Nat) :
    List Nat → List Nat × Bool
  | [] => (acc, started)
  | b :: rest =>
    if started then
      if b = 0xC0 then (acc, false)
      else if b = 0xDC ∧ inEscape then slipChunkLoop started false (acc ++ [0xC0]) rest
      else if b = 0xDD ∧ inEscape then slipChunkLoop started false (acc ++ [0xDB]) rest
      else if b = 0xDB then slipChunkLoop started true acc rest
      else slipChunkLoop started false (acc ++ [b]) rest
    else if b = 0xC0 then slipChunkLoop true inEscape acc rest
    else slipChunkLoop started inEscape acc rest

/-- ESPLoader.read's handleChunk on one data chunk: runs the byte loop,
appends the decoded bytes to the buffer, and reports whether the promise
resolves (buffer nonempty and the frame closed), per the source condition
buffer.length truthy and started false. -/
def slipHandleChunk (started : Bool) (buffer : List Nat) (data : List Nat) :
    (Bool × List Nat) × Bool :=
  let r := slipChunkLoop started false [] data
  let buffer' := buffer ++ r.1
  ((r.2, buffer'), decide (buffer' ≠ [] ∧ r.2 = false))

/-- Feeding one whole SLIP frame to ESPLoader.read as a single chunk:
some payload when the read promise resolves with it, none when the chunk
leaves the promise pending (it would later reject on timeout). -/
def slipDecodeFrame (frame : List Nat) : Option (List Nat) :=
  let r := slipHandleChunk false [] frame
  if r.2 then some r.1.2 else none

end ESPLoader

namespace STK500v2

/-- Modelled from the spec: the constants module of the STK500v2 engine
(imported as statics in stk500-v2.ts) is not among the provided sources.
The spec, section 4.3, fixes MESSAGE_START to 0x1B. -/
def MESSAGE_START : Nat := 0x1B

/-- Modelled from the spec: TOKEN is fixed to 0x0E by the spec,
section 4.3. -/
def TOKEN : Nat := 0x0E

/-- Modelled from the spec: the spec names ANSWER_CKSUM_ERROR (the reply
data byte the receiver treats as a peer checksum complaint); its value is
the standard STK500v2 protocol constant 0xB0. -/
def ANSWER_CKSUM_ERROR : Nat := 0xB0

/-- XOR of a list of bytes, as computed by sendCommand's reduce over the
message with initial accumulator 0 (stk500-v2.ts line 181). -/
def xorList (l : List Nat) : Nat := l.foldl (fun a b => a ^^^ b) 0

/-- The framed message written by STK500v2.sendCommand (lines 168-182):
MESSAGE_START, the current sequence number, the body length as two
big-endian bytes (writeUInt16BE, defined for lengths below 65536), TOKEN,
the body, and one trailing checksum byte equal to the XOR of all the
preceding bytes. -/
def sendFrame (seq : Nat) (body : List Nat) : List Nat :=
  let msg := [MESSAGE_START, seq, body.length / 256, body.length % 256, TOKEN] ++ body
  msg ++ [xorList msg]

/-- Receiver state of STK500v2.receiveData (lines 64-157): parser state
(0 START, 1 SEQNUM, 2 SIZE1, 3 SIZE2, 4 TOKEN, 5 DATA, 6 CSUM), the
engine sequence number, the two length bytes, the decoded length, the
write head, the running checksum, and the data buffer. -/
structure RecvSt where
  state : Nat
  seq : Nat
  len0 : Nat
  len1 : Nat
  length : Nat
  writeHead : Nat
  checksum : Nat
  buffer : List Nat
deriving DecidableEq

/-- Outcome of feeding one byte to the receiver state machine. -/
inductive ByteOut
  | cont (st : RecvSt)
  | overflow
  | peerCksum
  | cksumErr
  | invalid
  | resolve (buf : List Nat) (length : Nat)
deriving DecidableEq

/-- Fresh receiver state for a given engine sequence number. -/
def initSt (seq : Nat) : RecvSt :=
  { state := 0, seq := seq, len0 := 0, len1 := 0, length := 0,
    writeHead := 0, checksum := 0, buffer := [] }

/-- One byte of STK500v2.receiveData's handleChunk: the running checksum
is XORed with the byte first, then the state switch runs.  In state 0 a
MESSAGE_START byte resets the checksum to MESSAGE_START; in state 1 the
sequence must match and is bumped modulo 256; states 2 and 3 collect the
big-endian length (Buffer cells truncate to a byte); state 4 requires
TOKEN and allocates the buffer; state 5 stores body bytes, erroring on
overflow or on a first byte equal to ANSWER_CKSUM_ERROR; state 6 resolves
exactly when the running checksum is zero. -/
def stepByte (st : RecvSt) (byte : Nat) : ByteOut :=
  let ck := st.checksum ^^^ byte
  match st.state with
  | 0 =>
    if byte = MESSAGE_START then
      .cont { st with checksum := MESSAGE_START, state := 1 }
    else
      .cont { st with checksum := ck }
  | 1 =>
    if byte = st.seq then
      .cont { st with checksum := ck, seq := (st.seq + 1) % 256, state := 2 }
    else
      .cont { st with checksum := ck }
  | 2 =>
    .cont { st with
        checksum := ck,
        len0 := byte % 256,
        length := byte % 256 * 256 + st.len1,
        state := 3 }
  | 3 =>
    .cont { st with
        checksum := ck,
        len1 := byte % 256,
        length := st.len0 * 256 + byte % 256,
        state := 4 }
  | 4 =>
    if byte = TOKEN then
      .cont { st with checksum := ck, state := 5, buffer := [] }
    else
      .cont { st with checksum := ck, state := 0 }
  | 5 =>
    if st.writeHead < st.length then
      if st.writeHead = 0 ∧ byte = ANSWER_CKSUM_ERROR then .peerCksum
      else if st.writeHead + 1 = st.length then
        .cont { st with
            checksum := ck,
            buffer := st.buffer ++ [byte % 256],
            writeHead := st.writeHead + 1,
            state := 6 }
      else
        .cont { st with
            checksum := ck,
            buffer := st.buffer ++ [byte % 256],
            writeHead := st.writeHead + 1 }
    else .overflow
  | 6 => if ck = 0 then .resolve st.buffer st.length else .cksumErr
  | _ => .invalid

/-- Final outcome of the receiver over a byte stream. -/
inductive RunOut
  | pending (st : RecvSt)
  | overflow
  | peerCksum
  | cksumErr
  | invalid
  | lengthErr
  | resolve (buf : List Nat)
deriving DecidableEq

/-- Runs the receiver over a byte stream, stopping at the first terminal
outcome (the source returns out of handleChunk on finished).  On resolve,
the finished handler additionally rejects when a truthy responseLength was
requested and the decoded length differs (lines 82-83); the none case
models an absent or zero responseLength. -/
def run (responseLength : Option Nat) (st : RecvSt) : List Nat → RunOut
  | [] => .pending st
  | b :: rest =>
    match stepByte st b with
    | .cont st' => run responseLength st' rest
    | .overflow => .overflow
    | .peerCksum => .peerCksum
    | .cksumErr => .cksumErr
    | .invalid => .invalid
    | .resolve buf len =>
      match responseLength with
      | some n => if len ≠ n then .lengthErr else .resolve buf
      | none => .resolve buf

end STK500v2

/-- Errors raised by the engines' receive and command helpers, by shape:
a receive timeout (message receiveData timeout after N ms), a response
data mismatch, a buffer overflow, or any other error with its message. -/
inductive SErr
  | timeout (ms : Nat)
  | mismatch (expected got : List Nat)
  | overflow (got want : Nat)
  | other (msg : String)
deriving DecidableEq

/-- Mirrors the check err.message.includes with the receiveData timeout
text in AVR109.sync (avr109.ts line 496): among the errors the engines
produce, exactly the receive-timeout errors carry that message. -/
def isTimeoutErr : SErr → Bool
  | .timeout _ => true
  | _ => false

namespace STK500v1

/-- Receiver state of STK500v1.receiveData (stk500-v1.ts lines 84-134):
whether the first IN_SYNC byte has been seen, and the accumulated bytes. -/
structure RecvSt where
  started : Bool
  buffer : List Nat
deriving DecidableEq

/-- Outcome of one chunk fed to STK500v1.receiveData. -/
inductive ChunkOut
  | cont (st : RecvSt)
  | overflow
  | done (buf : List Nat)
deriving DecidableEq

/-- Index of the first RES_STK_INSYNC (0x14) byte in a chunk, as found by
the scanning while loop of STK500v1.receiveData (lines 107-114). -/
def firstSyncIdx : List Nat → Option Nat
  | [] => none
  | b :: rest => if b = 0x14 then some 0 else (firstSyncIdx rest).map (· + 1)

/-- One data chunk fed to STK500v1.receiveData's handleChunk: when not yet
started, the chunk is scanned for the first IN_SYNC byte at index k and
then replaced by data.slice(k, data.length - k) (line 110), so the kept
bytes run from the IN_SYNC byte up to position length minus k; once
started, chunks are appended whole; the result resolves when the buffer
reaches exactly responseLength, overflows above it, and waits otherwise. -/
def handleChunk (respLen : Nat) (st : RecvSt) (data : List Nat) : ChunkOut :=
  let r :=
    if st.started then (true, data)
    else
      match firstSyncIdx data with
      | some k => (true, (data.take (data.length - k)).drop k)
      | none => (false, data)
  let buffer := if r.1 then st.buffer ++ r.2 else st.buffer
  if respLen < buffer.length then .overflow
  else if buffer.length = respLen then .done buffer
  else .cont { started := r.1, buffer := buffer }

/-- Final outcome of STK500v1.receiveData over a stream of chunks;
exhausting the stream without resolving models the timeout rejection. -/
inductive RecvOut
  | timeout
  | overflow
  | done (buf : List Nat)
deriving DecidableEq

/-- STK500v1.receiveData over a finite stream of incoming chunks. -/
def runRecv (respLen : Nat) (st : RecvSt) : List (List Nat) → RecvOut
  | [] => .timeout
  | chunk :: rest =>
    match handleChunk respLen st chunk with
    | .cont st' => runRecv respLen st' rest
    | .overflow => .overflow
    | .done buf => .done buf

/-- STK500v1.sync (lines 168-186): attempt the GET_SYNC round trip (the
oracle gives each attempt's outcome); on any caught error, rethrow when
attempts is at most 1 (the zero and one cases) and otherwise retry with
attempts - 1.  The catch clause does not inspect the error. -/
def syncRun (oracle : Nat → Except SErr (List Nat)) :
    Nat → Nat → Except SErr (List Nat)
  | 0, idx =>
    match oracle idx with
    | .ok r => .ok r
    | .error e => .error e
  | 1, idx =>
    match oracle idx with
    | .ok r => .ok r
    | .error e => .error e
  | n + 2, idx =>
    match oracle idx with
    | .ok r => .ok r
    | .error _ => syncRun oracle (n + 1) (idx + 1)

end STK500v1

namespace STK500v2

/-- STK500v2.sync (stk500-v2.ts lines 219-238): attempt CMD_SIGN_ON (the
oracle gives each attempt's outcome); on any caught error, rethrow when
attempts is at most 1 (the zero and one cases) and otherwise retry with
attempts - 1.  The catch clause does not inspect the error. -/
def syncRun (oracle : Nat → Except SErr (List Nat)) :
    Nat → Nat → Except SErr (List Nat)
  | 0, idx =>
    match oracle idx with
    | .ok r => .ok r
    | .error e => .error e
  | 1, idx =>
    match oracle idx with
    | .ok r => .ok r
    | .error e => .error e
  | n + 2, idx =>
    match oracle idx with
    | .ok r => .ok r
    | .error _ => syncRun oracle (n + 1) (idx + 1)

end STK500v2

namespace AVR109

/-- ASCII carriage return, the AVR109 success-without-data reply. -/
def RES_EMPTY : Nat := 13

/-- ASCII question mark, the AVR109 command-unsupported reply. -/
def RES_UNKNOWN : Nat := 63

/-- AVR109.sync (avr109.ts lines 492-501): attempt RETURN_SOFTWARE_ID
with expected length 7; rethrow immediately any error whose message does
not carry the receiveData timeout text; among timeouts, give up after
count exceeds 5, else retry with count + 1. -/
def syncRun (oracle : Nat → Except SErr (List Nat)) (count : Nat) :
    Except SErr Unit :=
  match oracle count with
  | .ok _ => .ok ()
  | .error e =>
    if isTimeoutErr e = false then .error e
    else if h : 5 < count then .error (.other "Failed to connect to bootloader")
    else syncRun oracle (count + 1)
termination_by 6 - count
decreasing_by omega

/-- The options of one AVR109.cmd invocation: the command bytes written,
the receive timeout, the expected payload length, and the
read-until-null flag. -/
structure CmdOpts where
  cmdBytes : List Nat
  timeout : Nat
  len : Nat
  readUntilNull : Bool
deriving DecidableEq

/-- JavaScript logical-or over an optional numeric option with a default:
both an absent value and zero select the default. -/
def jsOr (v : Option Nat) (d : Nat) : Nat :=
  match v with
  | some t => if t = 0 then d else t
  | none => d

/-- ENTER_PROG_MODE, avr109.ts line 197: single byte P, defaults. -/
def enterProgModeOpts : CmdOpts := ⟨[80], 100, 0, false⟩

/-- LEAVE_PROG_MODE, line 201: single byte L, defaults. -/
def leaveProgModeOpts : CmdOpts := ⟨[76], 100, 0, false⟩

/-- CHIP_ERASE, line 193: single byte e, timeout defaulting to 9000. -/
def chipEraseOpts (timeout : Option Nat) : CmdOpts :=
  ⟨[101], jsOr timeout 9000, 0, false⟩

/-- SET_ADDR, lines 275-280: byte A then the address as writeUInt16BE. -/
def setAddrOpts (addr : Nat) : CmdOpts :=
  ⟨[65, addr / 256 % 256, addr % 256], 100, 0, false⟩

/-- SELECT_DEVICE_TYPE, line 269: byte T then the device code. -/
def selectDeviceOpts (code : Nat) : CmdOpts := ⟨[84, code], 100, 0, false⟩

/-- START_BLOCK_LOAD, lines 292-298: byte B, the page length as
writeUInt16BE, the memory flag, then the page bytes. -/
def blockLoadOpts (page : List Nat) (memFlag : Nat) : CmdOpts :=
  ⟨[66, page.length / 256 % 256, page.length % 256, memFlag] ++ page,
    100, 0, false⟩

/-- ISSUE_PAGE_WRITE, lines 346 and 359: byte m, timeout defaulting to
4500. -/
def issuePageWriteOpts (timeout : Option Nat) : CmdOpts :=
  ⟨[109], jsOr timeout 4500, 0, false⟩

/-- WRITE_PROG_MEM low or high, lines 335-339: the selected half command
byte and the data byte. -/
def writeProgMemOpts (halfCmd dataByte : Nat) : CmdOpts :=
  ⟨[halfCmd, dataByte], 100, 0, false⟩

/-- AVR109.cmd (lines 174-190) applied to the buffer its recv resolved
with: when no expected length and no read-until-null, the first reply
byte must be RES_EMPTY or RES_UNKNOWN and any other first byte raises;
in every non-raising case the resolved data is returned unchanged. -/
def runCmd (o : CmdOpts) (resp : List Nat) : Except String (List Nat) :=
  if o.len = 0 ∧ o.readUntilNull = false then
    let byte := resp.getD 0 0
    if byte ≠ RES_EMPTY ∧ byte ≠ RES_UNKNOWN then
      .error "Command failed, expected RES_EMPTY or RES_UNKNOWN"
    else .ok resp
  else .ok resp

end AVR109

namespace Bootload

/-- The awaited calls of STK500v1.bootload (stk500-v1.ts lines 373-394),
in source order; there is no try, catch or finally around them. -/
inductive StepV1
  | reset | sync1 | sync2 | sync3 | verifySignature | setOptions
  | enterProgmode | upload | verify | exitProgmode
deriving DecidableEq

/-- The source-order step list of STK500v1.bootload. -/
def stepsV1 : List StepV1 :=
  [.reset, .sync1, .sync2, .sync3, .verifySignature, .setOptions,
   .enterProgmode, .upload, .verify, .exitProgmode]

/-- The awaited calls of STK500v2.bootload (stk500-v2.ts lines 433-446),
in source order; there is no try, catch or finally around them. -/
inductive StepV2
  | reset | sync | verifySignature | enterProgmode | upload | verify
  | exitProgmode
deriving DecidableEq

/-- The source-order step list of STK500v2.bootload. -/
def stepsV2 : List StepV2 :=
  [.reset, .sync, .verifySignature, .enterProgmode, .upload, .verify,
   .exitProgmode]

/-- The awaited calls of AVR109.bootload (avr109.ts lines 503-537), in
source order; init ends with enterProgrammingMode (line 272), verify
covers the read back plus the throw on mismatch (lines 515-517), and
restorePort is the trailing reopen-and-restore block (lines 525-535).
There is no try, catch or finally around them. -/
inductive StepA
  | enterBootloader | sync | init | chipErase | program | verify
  | leaveProgMode | exitBootloader | restorePort
deriving DecidableEq

/-- The source-order step list of AVR109.bootload. -/
def stepsA : List StepA :=
  [.enterBootloader, .sync, .init, .chipErase, .program, .verify,
   .leaveProgMode, .exitBootloader, .restorePort]

/-- The steps a strictly sequential bootload run attempts, given which
steps succeed: steps run in order, and the first failing step is the last
one attempted because the exception propagates with nothing catching it. -/
def attempted {α : Type} (ok : α → Bool) : List α → List α
  | [] => []
  | s :: rest => if ok s then s :: attempted ok rest else [s]

/-- A sequential run succeeds exactly when every step succeeds. -/
def runOk {α : Type} (ok : α → Bool) (l : List α) : Bool := l.all ok

end Bootload

namespace Dispatcher

/-- Port model seen by the dispatcher: an identity (replacement ports get
a different one), the open flag, and the configured baud rate.  Opening a
port does not change its configured baud rate. -/
structure Port where
  pid : Nat
  isOpen : Bool
  baudRate : Nat
deriving DecidableEq

/-- Observable operations performed on a port. -/
inductive PortOp
  | openPort
  | updateBaud (baud : Nat)
  | write
deriving DecidableEq

/-- Errors raised by the dispatcher and the avr router. -/
inductive UErr
  | missingImage
  | unknownCpu (cpu : String)
  | unsupportedTool (tool : String)
  | unsupportedProtocol (protocol : String)
  | noReconnect
  | engineErr (msg : String)
deriving DecidableEq

/-- One catalog row of avr-cpu-data.ts: the signature bytes, the protocol
tag, and the optional page size, page count, timeout and STK500v2 timing
fields (absent fields are undefined in the source object). -/
structure CpuData where
  signature : List Nat
  protocol : String
  pageSize : Option Nat
  numPages : Option Nat
  timeout : Option Nat
  delay1 : Option Nat
  delay2 : Option Nat
  stabDelay : Option Nat
  cmdexeDelay : Option Nat
  synchLoops : Option Nat
  byteDelay : Option Nat
  pollValue : Option Nat
  pollIndex : Option Nat
deriving DecidableEq

/-- The cpuDefs catalog of avr-cpu-data.ts lines 23-79, all six rows. -/
def cpuDefs : List (String × CpuData) :=
  [("atmega328p",
    { signature := [0x1e, 0x95, 0x0f], protocol := "stk500v1",
      pageSize := some 128, numPages := some 256, timeout := some 400,
      delay1 := none, delay2 := none, stabDelay := none, cmdexeDelay := none,
      synchLoops := none, byteDelay := none, pollValue := none,
      pollIndex := none }),
   ("atmega168",
    { signature := [0x1e, 0x94, 0x06], protocol := "stk500v1",
      pageSize := some 128, numPages := some 128, timeout := some 400,
      delay1 := none, delay2 := none, stabDelay := none, cmdexeDelay := none,
      synchLoops := none, byteDelay := none, pollValue := none,
      pollIndex := none }),
   ("atmega8",
    { signature := [0x1e, 0x93, 0x07], protocol := "stk500v1",
      pageSize := some 64, numPages := some 128, timeout := some 400,
      delay1 := none, delay2 := none, stabDelay := none, cmdexeDelay := none,
      synchLoops := none, byteDelay := none, pollValue := none,
      pollIndex := none }),
   ("atmega2560",
    { signature := [0x1e, 0x98, 0x01], protocol := "stk500v2",
      pageSize := some 256, numPages := some 1024, timeout := some 0xc8,
      delay1 := some 10, delay2 := some 1, stabDelay := some 0x64,
      cmdexeDelay := some 0x19, synchLoops := some 0x20, byteDelay := some 0,
      pollValue := some 0x53, pollIndex := some 3 }),
   ("atmega1280",
    { signature := [0x1e, 0x97, 0x03], protocol := "stk500v2",
      pageSize := some 256, numPages := some 512, timeout := some 0xc8,
      delay1 := some 10, delay2 := some 1, stabDelay := some 0x64,
      cmdexeDelay := some 0x19, synchLoops := some 0x20, byteDelay := some 0,
      pollValue := some 0x53, pollIndex := some 3 }),
   ("atmega32u4",
    { signature := [0x43, 0x41, 0x54, 0x45, 0x52, 0x49, 0x4e],
      protocol := "avr109", pageSize := none, numPages := none,
      timeout := none, delay1 := none, delay2 := none, stabDelay := none,
      cmdexeDelay := none, synchLoops := none, byteDelay := none,
      pollValue := none, pollIndex := none })]

/-- getCpuData (avr-cpu-data.ts lines 81-85): looks up cpu (the empty
string when absent, per cpu or empty-string) and raises Unknown CPU when
the catalog has no row. -/
def getCpuData (cpu : Option String) : Except UErr CpuData :=
  match cpuDefs.lookup (cpu.getD "") with
  | some d => .ok d
  | none => .error (.unknownCpu (cpu.getD ""))

/-- avr isSupported (avr index of the current snapshot, lines 57-64):
getCpuData inside a try, false on its throw, else membership of the
protocol tag in the supported list. -/
def avrIsSupported (cpu : String) : Bool :=
  match getCpuData (some cpu) with
  | .ok d => ["stk500v1", "stk500v2", "avr109"].contains d.protocol
  | .error _ => false

/-- esp isSupported (esp/index.ts): the cpu is esp8266 or esp32. -/
def espIsSupported (cpu : String) : Bool :=
  ["esp8266", "esp32"].contains cpu

/-- isSupported (index.ts lines 188-199): route on the tool, false for
any other tool. -/
def isSupported (tool cpu : String) : Bool :=
  if tool = "avr" ∨ tool = "avrdude" then avrIsSupported cpu
  else if tool = "esptool" ∨ tool = "esptool_py" then espIsSupported cpu
  else false

/-- avr.upload routing (avr index lines 10-55): getCpuData runs first,
before any engine is constructed and before anything is written to the
port; then the protocol tag selects the engine, with avr109 additionally
requiring the reconnect callback.  The engine bootload runs themselves
are abstracted as an oracle from the handed-over port to the engine
outcome plus the port operations it performed.  Modelled from the spec:
the port the engine leaves behind (for AVR109 possibly a replacement) is
the value the dispatcher continues with (spec sections 2 and 4.1); the
avr index file in the provided snapshot omits the return statement. -/
def avrUpload (engine : String → Port → Except UErr Port × List PortOp)
    (cpu : Option String) (hasReconnect : Bool) (port : Port) :
    Except UErr Port × List PortOp :=
  match getCpuData cpu with
  | .error e => (.error e, [])
  | .ok d =>
    if d.protocol = "stk500v1" then engine "stk500v1" port
    else if d.protocol = "stk500v2" then engine "stk500v2" port
    else if d.protocol = "avr109" then
      if hasReconnect then engine "avr109" port
      else (.error .noReconnect, [])
    else (.error (.unsupportedProtocol d.protocol), [])

/-- Dispatcher configuration: whether an image is present (bin or files),
the bootloader baud, the tool and cpu identifiers, and whether the
avr109Reconnect callback was provided. -/
structure Config where
  hasBin : Bool
  speed : Option Nat
  tool : String
  cpu : Option String
  hasReconnect : Bool

/-- Opening step of upload (index.ts lines 151-154): open the port when
it is closed; opening does not change the configured baud rate. -/
def openStep (port : Port) : Port × List PortOp :=
  if port.isOpen = false then ({ port with isOpen := true }, [.openPort])
  else (port, [])

/-- Baud step of upload (lines 157-160): when a truthy speed differs from
the current baud rate, update the port to it (setBaud modelled as the
successful update of the baud field). -/
def setSpeedStep (speed : Option Nat) (p : Port) : Port × List PortOp :=
  match speed with
  | some s =>
    if s ≠ 0 ∧ s ≠ p.baudRate then ({ p with baudRate := s }, [.updateBaud s])
    else (p, [])
  | none => (p, [])

/-- Tool switch of upload (lines 164-175). -/
def toolStep (avrEngine : String → Port → Except UErr Port × List PortOp)
    (espEngine : Port → Except UErr Port × List PortOp)
    (cfg : Config) (p : Port) : Except UErr Port × List PortOp :=
  if cfg.tool = "avr" ∨ cfg.tool = "avrdude" then
    avrUpload avrEngine cfg.cpu cfg.hasReconnect p
  else if cfg.tool = "esptool" ∨ cfg.tool = "esptool_py" then espEngine p
  else (.error (.unsupportedTool cfg.tool), [])

/-- Restore step of upload (lines 178-180): when the engine-returned
port's baud differs from the baud recorded at entry, set it back. -/
def restoreStep (existingBaud : Nat) (newPort : Port) : Port × List PortOp :=
  if newPort.baudRate ≠ existingBaud then
    ({ newPort with baudRate := existingBaud }, [.updateBaud existingBaud])
  else (newPort, [])

/-- upload (index.ts part_005 lines 133-186): validate that an image is
present, open the port when needed, record the baud at entry (after the
open, which leaves the baud untouched), apply the bootloader baud,
dispatch on the tool, and restore the entry baud on the possibly-replaced
port; the result pairs the outcome with the trace of port operations in
order. -/
def upload (avrEngine : String → Port → Except UErr Port × List PortOp)
    (espEngine : Port → Except UErr Port × List PortOp)
    (cfg : Config) (port : Port) : Except UErr Port × List PortOp :=
  if cfg.hasBin = false then (.error .missingImage, [])
  else
    match toolStep avrEngine espEngine cfg
        (setSpeedStep cfg.speed (openStep port).1).1 with
    | (.error e, ops) =>
      (.error e,
        (openStep port).2 ++ (setSpeedStep cfg.speed (openStep port).1).2 ++ ops)
    | (.ok newPort, ops) =>
      (.ok (restoreStep (openStep port).1.baudRate newPort).1,
        (openStep port).2 ++ (setSpeedStep cfg.speed (openStep port).1).2 ++
          ops ++ (restoreStep (openStep port).1.baudRate newPort).2)

end Dispatcher

namespace ESPLoader

/-- The chip descriptor fields writeFlash consults: CHIP_NAME,
BOOTLOADER_FLASH_OFFSET, SUPPORTS_ENCRYPTION, the FLASH_SIZES map and
getEraseSize (per-chip code under roms). -/
structure EspChip where
  name : String
  bootloaderFlashOffset : Nat
  supportsEncryption : Bool
  flashSizes : List (String × Nat)
  getEraseSize : Nat → Nat → Nat

/-- Observable actions of a writeFlash run: the protocol commands issued
(flashBegin and flashDeflBegin with their computed packet fields,
flashBlock and flashDeflBlock with the data streamed, the stub readReg
ping, the SPI_FLASH_MD5 request with its address and size, and the
closing FLASH_END or FLASH_DEFL_END with the stay-in-loader value) and
the log lines.  Time-dependent log output (elapsed-time lines and the
per-block progress characters) is not modelled; the remaining log text is
abbreviated where the source interpolates timing or hex strings. -/
inductive EspAct
  | eraseFlash
  | flashBegin (eraseSize numBlocks blockSize offset : Nat)
  | deflBegin (writeSize numBlocks blockSize offset : Nat)
  | flashData (data : List Nat) (seq : Nat)
  | deflData (data : List Nat) (seq : Nat)
  | readRegPing (addr : Nat)
  | md5Request (addr size : Nat)
  | logLine (s : String)
  | flashEnd (stayInLoader : Nat)
  | deflEnd (stayInLoader : Nat)
deriving DecidableEq

/-- padTo (loader lines 1091-1096): pad with the pad character to a
multiple of the alignment, unchanged when already aligned. -/
def padTo (data : List Nat) (alignment : Nat) (padChar : Nat) : List Nat :=
  let padLength := alignment - data.length % alignment
  if padLength = alignment then data
  else data ++ List.replicate padLength padChar

/-- Substring test mirroring JavaScript String.includes. -/
def strIncludes (s sub : String) : Bool :=
  decide (sub.toList <:+: s.toList)

/-- flashSizeBytes (lines 1010-1023): parse the digits of the text (-1
when there are none) and scale by a kb, mb or gb suffix. -/
def flashSizeBytes (str : String) : Int :=
  let digits := str.toList.filter Char.isDigit
  let flashSize : Int :=
    if digits.isEmpty then -1 else ((String.mk digits).toNat?.getD 0 : Int)
  if strIncludes str.toLower "kb" then flashSize * 1024
  else if strIncludes str.toLower "mb" then flashSize * 1024 * 1024
  else if strIncludes str.toLower "gb" then flashSize * 1024 * 1024 * 1024
  else flashSize

/-- The flashModes table of updateImageFlashParams (lines 1063-1065). -/
def flashModes : List (String × Nat) :=
  [("qio", 0), ("qout", 1), ("dio", 2), ("dout", 3)]

/-- The flashFreqs table of updateImageFlashParams (lines 1071-1073). -/
def flashFreqs : List (String × Nat) :=
  [("40m", 0), ("26m", 1), ("20m", 2), ("80m", 0xf)]

/-- parseFlashSizeArg (lines 1026-1035): look the text up in the chip's
FLASH_SIZES map, raising on an unsupported size. -/
def parseFlashSizeArg (chip : EspChip) (s : String) : Except String Nat :=
  match chip.flashSizes.lookup s.toUpper with
  | some size => .ok size
  | none => .error "Invalid flash size"

/-- updateImageFlashParams (lines 1040-1088): images shorter than 8
bytes, images not at the bootloader flash offset, and the all-keep
parameter case pass through unchanged; a wrong magic byte only logs;
otherwise mode, frequency and size nibbles are resolved (absent table
entries coerce to 0, as the JavaScript Buffer write coerces undefined)
and bytes 2 and 3 of the image are rewritten when they change.  Returns
the image together with the log actions emitted. -/
def updateImageFlashParams (chip : EspChip) (image : List Nat)
    (address : Nat) (flashSize flashMode flashFreq : String) :
    Except String (List Nat × List EspAct) :=
  if image.length < 8 then .ok (image, [])
  else if address ≠ chip.bootloaderFlashOffset then .ok (image, [])
  else if flashSize = "keep" ∧ flashMode = "keep" ∧ flashFreq = "keep" then
    .ok (image, [])
  else
    let magic := image.getD 0 0
    let flashSizeFreq := image.getD 3 0
    if magic ≠ 0xE9 then
      .ok (image,
        [.logLine "Warning: image does not look like an image file, not changing any flash settings"])
    else do
      let aFlashMode :=
        if flashMode ≠ "keep" then (flashModes.lookup flashMode).getD 0
        else image.getD 2 0
      let aFlashFreq :=
        if flashFreq ≠ "keep" then (flashFreqs.lookup flashFreq).getD 0
        else flashSizeFreq &&& 0x0F
      let aFlashSize ←
        if flashSize ≠ "keep" then parseFlashSizeArg chip flashSize
        else .ok (flashSizeFreq &&& 0xF0)
      if aFlashMode ≠ image.getD 2 0 ∨ aFlashFreq + aFlashSize ≠ image.getD 3 0 then
        .ok ((image.set 2 aFlashMode).set 3 (aFlashFreq + aFlashSize),
          [.logLine "Flash params set"])
      else .ok (image, [])

/-- The while loop of writeFlash (lines 1153-1197) as the list of
FLASH_WRITE_SIZE-sized slices of the stream, in order. -/
def splitBlocks (fws : Nat) (l : List Nat) : List (List Nat) :=
  if h : l = [] ∨ fws = 0 then []
  else l.take fws :: splitBlocks fws (l.drop fws)
termination_by l.length
decreasing_by
  push_neg at h
  simp only [List.length_drop]
  have := List.length_pos.mpr h.1
  omega

/-- The block-write actions of one file: compressed streams go out as
FLASH_DEFL_DATA blocks as sliced; uncompressed short blocks are padded to
the full write size with 0xFF (lines 1182-1186) before FLASH_DATA. -/
def blockActs (compress : Bool) (fws : Nat) (stream : List Nat) : List EspAct :=
  (splitBlocks fws stream).enum.map
    (fun p =>
      if compress then EspAct.deflData p.2 p.1
      else EspAct.flashData (p.2 ++ List.replicate (fws - p.2.length) 0xFF) p.1)

/-- The per-file actions before the MD5 check (lines 1140-1206): the
flashDeflBegin or flashBegin command with its computed fields (lines
605-689), the streamed blocks, the stub readReg ping at the chip-detect
register, and the wrote-summary log lines. -/
def preActs (chip : EspChip) (stub : Bool) (fws : Nat)
    (deflate : List Nat → List Nat) (compress : Bool) (address : Nat)
    (image : List Nat) : List EspAct :=
  let rawSize := image.length
  if compress then
    let deflated := deflate image
    let numBlocks := (deflated.length + fws - 1) / fws
    let eraseBlocks := (rawSize + fws - 1) / fws
    let writeSize := if stub then rawSize else eraseBlocks * fws
    [EspAct.logLine ("Compressed " ++ toString rawSize ++ " bytes to " ++
        toString deflated.length ++ "..."),
      EspAct.deflBegin writeSize numBlocks fws address] ++
      blockActs compress fws deflated ++
      (if stub then [EspAct.readRegPing 0x40001000] else []) ++
      [EspAct.logLine "", EspAct.logLine ("Wrote " ++ toString rawSize ++ " bytes")]
  else
    let numBlocks := (rawSize + fws - 1) / fws
    [EspAct.flashBegin (chip.getEraseSize address rawSize) numBlocks fws address] ++
      blockActs compress fws image ++
      (if stub then [EspAct.readRegPing 0x40001000] else []) ++
      [EspAct.logLine "", EspAct.logLine ("Wrote " ++ toString rawSize ++ " bytes")]

/-- The MD5 check tail of one file (lines 1208-1216): unless a ROM-mode
ESP8266, request SPI_FLASH_MD5 over the pre-compression address and size
and compare the device result with the locally computed digest; a
mismatch logs the two digests, a match logs the verified line, and
neither raises. -/
def md5CheckActs (stub : Bool) (chipName : String)
    (deviceMd5 : Nat → Nat → String) (address rawSize : Nat)
    (calcMd5 : String) : List EspAct :=
  if stub ∨ chipName ≠ "ESP8266" then
    EspAct.md5Request address rawSize ::
      (if deviceMd5 address rawSize ≠ calcMd5 then
        [EspAct.logLine ("File  md5: " ++ calcMd5),
          EspAct.logLine ("Flash md5: " ++ deviceMd5 address rawSize)]
      else [EspAct.logLine "Hash of data verified."])
  else []

/-- One nonempty file of the writeFlash loop (lines 1121-1217): pad to a
4-byte multiple with 0xFF, apply the image flash parameters, compute the
local MD5 of the raw (pre-compression) image, then stream and check.  The
MD5 function and the deflate compressor are the external crypto-js and
pako collaborators, taken as parameters; deviceMd5 is the device's answer
to the SPI_FLASH_MD5 command. -/
def processFile (chip : EspChip) (stub : Bool) (fws : Nat)
    (md5 : List Nat → String) (deflate : List Nat → List Nat)
    (deviceMd5 : Nat → Nat → String)
    (flashSize flashMode flashFreq : String) (compress : Bool)
    (address : Nat) (fileData : List Nat) : Except String (List EspAct) := do
  let image0 := padTo fileData 4 0xFF
  let r ← updateImageFlashParams chip image0 address flashSize flashMode flashFreq
  .ok (r.2 ++ preActs chip stub fws deflate compress address r.1 ++
    md5CheckActs stub chip.name deviceMd5 address r.1.length (md5 r.1))

/-- The file loop of writeFlash (lines 1121-1217): an empty file logs a
warning and breaks out of the loop, skipping the remaining files; a
nonempty file is processed and the loop continues. -/
def writeFlashLoop (chip : EspChip) (stub : Bool) (fws : Nat)
    (md5 : List Nat → String) (deflate : List Nat → List Nat)
    (deviceMd5 : Nat → Nat → String)
    (flashSize flashMode flashFreq : String) (compress : Bool) :
    List (Nat × List Nat) → Except String (List EspAct)
  | [] => .ok []
  | (address, fileData) :: rest =>
    if fileData = [] then .ok [.logLine "Warning: File is empty"]
    else do
      let acts ← processFile chip stub fws md5 deflate deviceMd5
        flashSize flashMode flashFreq compress address fileData
      let racts ← writeFlashLoop chip stub fws md5 deflate deviceMd5
        flashSize flashMode flashFreq compress rest
      .ok (acts ++ racts)

/-- writeFlash (lines 1099-1228): when flashSize is not keep, every file
must fit below the parsed flash end or the call raises; under the stub
with eraseAll the whole flash is erased first; then the file loop runs,
the leaving line is logged, and under the stub a final flashBegin of size
0 at offset 0 is followed by FLASH_DEFL_END or FLASH_END with
stay-in-loader 1 (reboot false). -/
def writeFlash (chip : EspChip) (stub : Bool) (fws : Nat)
    (md5 : List Nat → String) (deflate : List Nat → List Nat)
    (deviceMd5 : Nat → Nat → String) (files : List (Nat × List Nat))
    (flashSize flashMode flashFreq : String) (eraseAll compress : Bool) :
    Except String (List EspAct) := do
  if flashSize ≠ "keep" then
    if files.all (fun f => ((f.2.length : Int) + (f.1 : Int)) ≤
        flashSizeBytes flashSize) then .ok ()
    else .error "Specified file does not fit in the available flash"
  else .ok ()
  let eraseActs : List EspAct := if stub ∧ eraseAll then [.eraseFlash] else []
  let main ← writeFlashLoop chip stub fws md5 deflate deviceMd5
    flashSize flashMode flashFreq compress files
  let finActs : List EspAct :=
    if stub then
      [EspAct.flashBegin (chip.getEraseSize 0 0) ((0 + fws - 1) / fws) fws 0] ++
        (if compress then [EspAct.deflEnd 1] else [EspAct.flashEnd 1])
    else []
  .ok (eraseActs ++ main ++ [EspAct.logLine "Leaving..."] ++ finActs)

/-- A log action, for separating protocol actions from log output. -/
def isLogAct : EspAct → Bool
  | .logLine _ => true
  | _ => false

/-- An SPI_FLASH_MD5 request action. -/
def isMd5Act : EspAct → Bool
  | .md5Request _ _ => true
  | _ => false

/-- The action list of a successful run, empty on error. -/
def getActs : Except String (List EspAct) → List EspAct
  | .ok l => l
  | .error _ => []

end ESPLoader

theorem slip_step_esc_c0 (acc rest : List Nat) :
    ESPLoader.slipChunkLoop true false acc (0xDB :: 0xDC :: rest) =
      ESPLoader.slipChunkLoop true false (acc ++ [0xC0]) rest := by
  norm_num [ESPLoader.slipChunkLoop]

theorem slip_step_esc_db (acc rest : List Nat) :
    ESPLoader.slipChunkLoop true false acc (0xDB :: 0xDD :: rest) =
      ESPLoader.slipChunkLoop true false (acc ++ [0xDB]) rest := by
  norm_num [ESPLoader.slipChunkLoop]

theorem slip_step_plain (b : Nat) (h1 : b ≠ 0xC0) (h2 : b ≠ 0xDB)
    (acc rest : List Nat) :
    ESPLoader.slipChunkLoop true false acc (b :: rest) =
      ESPLoader.slipChunkLoop true false (acc ++ [b]) rest := by
  simp [ESPLoader.slipChunkLoop, h1, h2]

theorem chunks_flatten (p : Nat) :
    ∀ (n : Nat) (l : List Nat), l.length ≤ n * p →
      ((List.range n).map (fun i => (l.drop (i * p)).take p)).flatten = l := by
  intro n
  induction n with
  | zero =>
    intro l h
    simp only [Nat.zero_mul, Nat.le_zero] at h
    simp [List.eq_nil_of_length_eq_zero h]
  | succ n ih =>
    intro l h
    rw [List.range_succ_eq_map]
    simp only [List.map_cons, List.map_map, List.flatten_cons, Nat.zero_mul,
      List.drop_zero]
    have hmap : (List.range n).map ((fun i => (l.drop (i * p)).take p) ∘ Nat.succ) =
        (List.range n).map (fun i => ((l.drop p).drop (i * p)).take p) := by
      refine List.map_congr_left ?_
      intro i _
      simp only [Function.comp_apply, List.drop_drop]
      have : i.succ * p = i * p + p := Nat.succ_mul i p
      rw [this, Nat.add_comm (i * p) p]
    rw [hmap, ih (l.drop p)
      (by simp only [List.length_drop]
          have h2 : (n + 1) * p = n * p + p := by ring
          omega)]
    exact List.take_append_drop p l

theorem slip_chunk_escape (xs : List Nat) :
    ∀ (acc rest : List Nat),
      ESPLoader.slipChunkLoop true false acc (ESPLoader.slipEscape xs ++ rest) =
        ESPLoader.slipChunkLoop true false (acc ++ xs) rest := by
  induction xs with
  | nil => intro acc rest; simp [ESPLoader.slipEscape]
  | cons b xs ih =>
    intro acc rest
    by_cases hb : b = 0xC0
    · subst hb
      rw [show ESPLoader.slipEscape (0xC0 :: xs) = 0xDB :: 0xDC :: ESPLoader.slipEscape xs
        from by norm_num [ESPLoader.slipEscape]]
      rw [List.cons_append, List.cons_append, slip_step_esc_c0, ih]
      simp
    · by_cases hb' : b = 0xDB
      · subst hb'
        rw [show ESPLoader.slipEscape (0xDB :: xs) = 0xDB :: 0xDD :: ESPLoader.slipEscape xs
          from by norm_num [ESPLoader.slipEscape]]
        rw [List.cons_append, List.cons_append, slip_step_esc_db, ih]
        simp
      · rw [show ESPLoader.slipEscape (b :: xs) = b :: ESPLoader.slipEscape xs
          from by simp [ESPLoader.slipEscape, hb, hb']]
        rw [List.cons_append, slip_step_plain b hb hb', ih]
        simp

theorem pageSlice_eq_take_drop (hex : List Nat) (p i : Nat) (h : p < hex.length) :
    STK500.pageSlice hex p i = (hex.drop (i * p)).take p := by
  unfold STK500.pageSlice jsSubarray
  rw [if_pos h, List.drop_take]
  congr 1
  omega

/-- C1 (corrected).  The claim asserts that the trailing byte of the image
is clipped from the written data exactly when the image length exceeds the
page size, the last page otherwise being written in full.  The code does
the opposite: with a 3-byte image and page size 2 (length exceeds page
size) every byte including the trailing one is written, and with a 2-byte
image and page size 2 (length does not exceed page size) the trailing byte
is clipped. -/
theorem c1_clip_condition_counterexample :
    ¬ (STK500.writtenBytes [1, 2, 3] 2 = List.dropLast [1, 2, 3]) ∧
      ¬ (STK500.writtenBytes [1, 2] 2 = [1, 2]) := by
  constructor <;> decide

/-- C1 (amended): the upload and verify loops of STK500v1 and STK500v2
slice the image with the quoted subarray expression, and the trailing byte
of the image is clipped from the written data exactly when the image
length does NOT exceed the page size (the whole image fits in one page);
when the image is longer than a page, every byte of the image, including
the trailing byte, is written. -/
theorem c1_page_slicing (hex : List Nat) (p : Nat) (hp : 0 < p)
    (hlen : 0 < hex.length) :
    STK500.writtenBytes hex p =
      if hex.length ≤ p then hex.dropLast else hex := by
  by_cases hcase : hex.length ≤ p
  · rw [if_pos hcase]
    have hn : STK500.pagesCount hex.length p = 1 := by
      unfold STK500.pagesCount
      exact Nat.div_eq_of_lt_le (by omega) (by omega)
    unfold STK500.writtenBytes
    rw [hn, show List.range 1 = [0] from rfl]
    simp only [List.map_cons, List.map_nil, List.flatten_cons, List.flatten_nil,
      List.append_nil]
    unfold STK500.pageSlice jsSubarray
    rw [if_neg (show ¬ p < hex.length by omega), List.dropLast_eq_take]
    simp
  · rw [if_neg hcase]
    have hlt : p < hex.length := by omega
    unfold STK500.writtenBytes
    have hmap : (List.range (STK500.pagesCount hex.length p)).map
        (STK500.pageSlice hex p) =
        (List.range (STK500.pagesCount hex.length p)).map
          (fun i => (hex.drop (i * p)).take p) := by
      exact List.map_congr_left fun i _ => pageSlice_eq_take_drop hex p i hlt
    rw [hmap]
    apply chunks_flatten
    unfold STK500.pagesCount
    have h1 := Nat.div_add_mod (hex.length + p - 1) p
    have h2 : (hex.length + p - 1) % p < p := Nat.mod_lt _ hp
    -- length is at most pagesCount * p
    have h3 : hex.length ≤ ((hex.length + p - 1) / p) * p := by
      set q := (hex.length + p - 1) / p
      set r := (hex.length + p - 1) % p
      have : p * q = hex.length + p - 1 - r := by omega
      have hq : q * p = p * q := Nat.mul_comm q p
      omega
    exact h3

/-- C1 witness: the amended slicing law evaluated at a 3-byte image with
page size 2 and at a 2-byte image with page size 2. -/
theorem c1_page_slicing_witness :
    STK500.writtenBytes [1, 2, 3] 2 = [1, 2, 3] ∧
      STK500.writtenBytes [5, 6] 4 = [5] := by
  constructor
  · have h := c1_page_slicing [1, 2, 3] 2 (by decide) (by decide)
    simpa using h
  · have h := c1_page_slicing [5, 6] 4 (by decide) (by decide)
    simpa using h

/-- C6 (corrected).  The claim asserts the SLIP round trip for every byte
sequence; for the empty sequence the encoder emits the frame 0xC0 0xC0 and
the decoder never resolves (the resolution condition requires a nonempty
buffer), so the round trip does not yield the empty sequence. -/
theorem c6_slip_empty_counterexample :
    ESPLoader.slipDecodeFrame (ESPLoader.slipEncode []) = none := by
  decide

/-- C6 (amended): for every nonempty byte sequence, including sequences
containing 0xC0 and 0xDB, decoding the SLIP frame produced by the
encoder of ESPLoader.write with the decoder of ESPLoader.read yields
exactly the original sequence. -/
theorem c6_slip_roundtrip (xs : List Nat) (h : xs ≠ []) :
    ESPLoader.slipDecodeFrame (ESPLoader.slipEncode xs) = some xs := by
  have h1 : ESPLoader.slipChunkLoop false false []
      (0xC0 :: (ESPLoader.slipEscape xs ++ [0xC0])) = (xs, false) := by
    rw [show ESPLoader.slipChunkLoop false false []
        (0xC0 :: (ESPLoader.slipEscape xs ++ [0xC0])) =
        ESPLoader.slipChunkLoop true false [] (ESPLoader.slipEscape xs ++ [0xC0])
      from by norm_num [ESPLoader.slipChunkLoop]]
    rw [slip_chunk_escape]
    norm_num [ESPLoader.slipChunkLoop]
  unfold ESPLoader.slipDecodeFrame ESPLoader.slipHandleChunk ESPLoader.slipEncode
  simp only [h1, List.nil_append]
  simp [h]

/-- C6 witness: the round trip evaluated on a sequence containing both
special bytes 0xC0 and 0xDB. -/
theorem c6_slip_roundtrip_witness :
    ESPLoader.slipDecodeFrame (ESPLoader.slipEncode [0xC0, 0xDB, 0x41, 0xDC]) =
      some [0xC0, 0xDB, 0x41, 0xDC] :=
  c6_slip_roundtrip [0xC0, 0xDB, 0x41, 0xDC] (by decide)

theorem foldl_xor_eq (l : List Nat) :
    ∀ a, l.foldl (fun x y => x ^^^ y) a = a ^^^ STK500v2.xorList l := by
  induction l with
  | nil =>
    intro a
    simp [STK500v2.xorList]
  | cons b rest ih =>
    intro a
    unfold STK500v2.xorList
    simp only [List.foldl_cons]
    rw [ih (a ^^^ b), ih (0 ^^^ b)]
    simp only [Nat.zero_xor]
    rw [Nat.xor_assoc]

theorem xorList_cons (b : Nat) (l : List Nat) :
    STK500v2.xorList (b :: l) = b ^^^ STK500v2.xorList l := by
  unfold STK500v2.xorList
  simp only [List.foldl_cons]
  rw [foldl_xor_eq]
  simp only [Nat.zero_xor]
  rfl

theorem xorList_append (l1 l2 : List Nat) :
    STK500v2.xorList (l1 ++ l2) =
      STK500v2.xorList l1 ^^^ STK500v2.xorList l2 := by
  induction l1 with
  | nil => simp [STK500v2.xorList]
  | cons b rest ih =>
    rw [List.cons_append, xorList_cons, xorList_cons, ih, Nat.xor_assoc]

theorem v2_run_cons_cont (rl : Option Nat) (st : STK500v2.RecvSt) (b : Nat)
    (rest : List Nat) (st' : STK500v2.RecvSt)
    (h : STK500v2.stepByte st b = .cont st') :
    STK500v2.run rl st (b :: rest) = STK500v2.run rl st' rest := by
  simp [STK500v2.run, h]

theorem v2_run_data (body : List Nat) :
    ∀ (st : STK500v2.RecvSt) (c : Nat),
      st.state = 5 → st.writeHead + body.length = st.length →
      body ≠ [] →
      (st.writeHead = 0 → body.head? ≠ some STK500v2.ANSWER_CKSUM_ERROR) →
      (∀ b ∈ body, b < 256) →
      STK500v2.run none st (body ++ [c]) =
        (if st.checksum ^^^ (STK500v2.xorList body ^^^ c) = 0
         then STK500v2.RunOut.resolve (st.buffer ++ body)
         else STK500v2.RunOut.cksumErr) := by
  induction body with
  | nil => intro st c h1 h2 h3 h4 h5; exact absurd rfl h3
  | cons b rest ih =>
    intro st c hstate hlen hne hhead hbytes
    have hb : b < 256 := hbytes b (by simp)
    have hbmod : b % 256 = b := Nat.mod_eq_of_lt hb
    have hnotpeer : ¬ (st.writeHead = 0 ∧ b = STK500v2.ANSWER_CKSUM_ERROR) := by
      rintro ⟨hz, hbB0⟩
      exact hhead hz (by simp [hbB0])
    cases rest with
    | nil =>
      have hwh : st.writeHead + 1 = st.length := by
        simp only [List.length_cons, List.length_nil] at hlen; omega
      have hlt : st.writeHead < st.length := by omega
      have hstep1 : STK500v2.stepByte st b = .cont { st with
          checksum := st.checksum ^^^ b,
          buffer := st.buffer ++ [b],
          writeHead := st.writeHead + 1,
          state := 6 } := by
        simp only [STK500v2.stepByte, hstate]
        rw [if_pos hlt, if_neg hnotpeer, if_pos hwh, hbmod]
      have hstep2 : STK500v2.stepByte { st with
          checksum := st.checksum ^^^ b,
          buffer := st.buffer ++ [b],
          writeHead := st.writeHead + 1,
          state := 6 } c =
          (if st.checksum ^^^ b ^^^ c = 0
           then STK500v2.ByteOut.resolve (st.buffer ++ [b]) st.length
           else STK500v2.ByteOut.cksumErr) := by
        simp only [STK500v2.stepByte]
      simp only [List.cons_append, List.nil_append]
      simp only [STK500v2.run, hstep1, hstep2]
      rw [xorList_cons]
      simp only [STK500v2.xorList, List.foldl_nil, Nat.xor_zero]
      have hassoc : st.checksum ^^^ (b ^^^ c) = st.checksum ^^^ b ^^^ c :=
        (Nat.xor_assoc _ _ _).symm
      simp only [hassoc]
      by_cases hck : st.checksum ^^^ b ^^^ c = 0
      · simp [hck]
      · simp [hck]
    | cons b2 rest2 =>
      have hlt : st.writeHead < st.length := by
        simp only [List.length_cons] at hlen; omega
      have hne2 : ¬ (st.writeHead + 1 = st.length) := by
        simp only [List.length_cons] at hlen; omega
      have hstep1 : STK500v2.stepByte st b = .cont { st with
          checksum := st.checksum ^^^ b,
          buffer := st.buffer ++ [b],
          writeHead := st.writeHead + 1 } := by
        simp only [STK500v2.stepByte, hstate]
        rw [if_pos hlt, if_neg hnotpeer, if_neg hne2, hbmod]
      simp only [List.cons_append]
      rw [v2_run_cons_cont none st b _ _ hstep1]
      have ih' := ih { st with
          checksum := st.checksum ^^^ b,
          buffer := st.buffer ++ [b],
          writeHead := st.writeHead + 1 } c
        (by simpa using hstate)
        (by simp only [List.length_cons] at hlen
            show st.writeHead + 1 + (b2 :: rest2).length = st.length
            simp only [List.length_cons]
            omega)
        (by simp)
        (by intro h0; simp at h0)
        (fun x hx => hbytes x (by simp [hx]))
      simp only [List.cons_append] at ih'
      rw [ih']
      simp only [xorList_cons, List.append_assoc, List.singleton_append,
        Nat.xor_assoc]

theorem v2_prefix_run (s hi lo : Nat) (tail : List Nat) :
    STK500v2.run none (STK500v2.initSt s)
        (STK500v2.MESSAGE_START :: s :: hi :: lo :: STK500v2.TOKEN :: tail) =
      STK500v2.run none
        { state := 5, seq := (s + 1) % 256, len0 := hi % 256, len1 := lo % 256,
          length := hi % 256 * 256 + lo % 256, writeHead := 0,
          checksum := STK500v2.MESSAGE_START ^^^ s ^^^ hi ^^^ lo ^^^ STK500v2.TOKEN,
          buffer := [] } tail := by
  have h0 : STK500v2.stepByte (STK500v2.initSt s) STK500v2.MESSAGE_START = .cont
      { state := 1, seq := s, len0 := 0, len1 := 0, length := 0,
        writeHead := 0, checksum := STK500v2.MESSAGE_START, buffer := [] } := by
    simp [STK500v2.stepByte, STK500v2.initSt]
  have h1 : STK500v2.stepByte
      { state := 1, seq := s, len0 := 0, len1 := 0, length := 0,
        writeHead := 0, checksum := STK500v2.MESSAGE_START, buffer := [] } s = .cont
      { state := 2, seq := (s + 1) % 256, len0 := 0, len1 := 0, length := 0,
        writeHead := 0, checksum := STK500v2.MESSAGE_START ^^^ s, buffer := [] } := by
    simp [STK500v2.stepByte]
  have h2 : STK500v2.stepByte
      { state := 2, seq := (s + 1) % 256, len0 := 0, len1 := 0, length := 0,
        writeHead := 0, checksum := STK500v2.MESSAGE_START ^^^ s, buffer := [] } hi = .cont
      { state := 3, seq := (s + 1) % 256, len0 := hi % 256, len1 := 0,
        length := hi % 256 * 256 + 0, writeHead := 0,
        checksum := STK500v2.MESSAGE_START ^^^ s ^^^ hi, buffer := [] } := by
    simp [STK500v2.stepByte]
  have h3 : STK500v2.stepByte
      { state := 3, seq := (s + 1) % 256, len0 := hi % 256, len1 := 0,
        length := hi % 256 * 256 + 0, writeHead := 0,
        checksum := STK500v2.MESSAGE_START ^^^ s ^^^ hi, buffer := [] } lo = .cont
      { state := 4, seq := (s + 1) % 256, len0 := hi % 256, len1 := lo % 256,
        length := hi % 256 * 256 + lo % 256, writeHead := 0,
        checksum := STK500v2.MESSAGE_START ^^^ s ^^^ hi ^^^ lo, buffer := [] } := by
    simp [STK500v2.stepByte]
  have h4 : STK500v2.stepByte
      { state := 4, seq := (s + 1) % 256, len0 := hi % 256, len1 := lo % 256,
        length := hi % 256 * 256 + lo % 256, writeHead := 0,
        checksum := STK500v2.MESSAGE_START ^^^ s ^^^ hi ^^^ lo, buffer := [] }
      STK500v2.TOKEN = .cont
      { state := 5, seq := (s + 1) % 256, len0 := hi % 256, len1 := lo % 256,
        length := hi % 256 * 256 + lo % 256, writeHead := 0,
        checksum := STK500v2.MESSAGE_START ^^^ s ^^^ hi ^^^ lo ^^^ STK500v2.TOKEN,
        buffer := [] } := by
    simp [STK500v2.stepByte, STK500v2.TOKEN]
  rw [v2_run_cons_cont _ _ _ _ _ h0, v2_run_cons_cont _ _ _ _ _ h1,
    v2_run_cons_cont _ _ _ _ _ h2, v2_run_cons_cont _ _ _ _ _ h3,
    v2_run_cons_cont _ _ _ _ _ h4]

/-- C7 (confirmed): for every message STK500v2.sendCommand emits, the
trailing byte equals the XOR of all preceding bytes (MESSAGE_START, SEQ,
the two length bytes, TOKEN and the body), and the receiver state machine
of STK500v2.receiveData, fed a well-formed packet for its current
sequence number, accepts exactly when the running XOR over all bytes
including the trailing checksum byte is zero (and rejects with a checksum
error otherwise); in particular it accepts every frame the sender
produces. -/
theorem c7_stk500v2_checksum (s : Nat) (body : List Nat)
    (hlen : 0 < body.length) (hlen2 : body.length < 65536)
    (hbytes : ∀ b ∈ body, b < 256)
    (hhead : body.head? ≠ some STK500v2.ANSWER_CKSUM_ERROR) :
    (STK500v2.sendFrame s body).getLast? =
      some (STK500v2.xorList (STK500v2.sendFrame s body).dropLast) ∧
    (STK500v2.sendFrame s body).dropLast =
      [STK500v2.MESSAGE_START, s, body.length / 256, body.length % 256,
        STK500v2.TOKEN] ++ body ∧
    (∀ c : Nat, STK500v2.run none (STK500v2.initSt s)
        (([STK500v2.MESSAGE_START, s, body.length / 256, body.length % 256,
          STK500v2.TOKEN] ++ body) ++ [c]) =
      (if STK500v2.xorList (([STK500v2.MESSAGE_START, s, body.length / 256,
            body.length % 256, STK500v2.TOKEN] ++ body) ++ [c]) = 0
       then STK500v2.RunOut.resolve body
       else STK500v2.RunOut.cksumErr)) ∧
    STK500v2.run none (STK500v2.initSt s) (STK500v2.sendFrame s body) =
      STK500v2.RunOut.resolve body := by
  have hhi : body.length / 256 < 256 := Nat.div_lt_of_lt_mul (by omega)
  have hhimod : body.length / 256 % 256 = body.length / 256 := Nat.mod_eq_of_lt hhi
  have hlomod : body.length % 256 % 256 = body.length % 256 :=
    Nat.mod_eq_of_lt (Nat.mod_lt _ (by norm_num))
  have hlen5 : body.length / 256 % 256 * 256 + body.length % 256 % 256 =
      body.length := by
    rw [hhimod, hlomod]
    have := Nat.div_add_mod body.length 256
    omega
  have hbody_ne : body ≠ [] := List.ne_nil_of_length_pos hlen
  -- the receiver accepts exactly on zero running XOR
  have hrecv : ∀ c : Nat, STK500v2.run none (STK500v2.initSt s)
      (([STK500v2.MESSAGE_START, s, body.length / 256, body.length % 256,
        STK500v2.TOKEN] ++ body) ++ [c]) =
      (if STK500v2.xorList (([STK500v2.MESSAGE_START, s, body.length / 256,
          body.length % 256, STK500v2.TOKEN] ++ body) ++ [c]) = 0
       then STK500v2.RunOut.resolve body
       else STK500v2.RunOut.cksumErr) := by
    intro c
    have hshape : ([STK500v2.MESSAGE_START, s, body.length / 256,
        body.length % 256, STK500v2.TOKEN] ++ body) ++ [c] =
        STK500v2.MESSAGE_START :: s :: body.length / 256 :: body.length % 256 ::
          STK500v2.TOKEN :: (body ++ [c]) := by
      simp
    rw [hshape, v2_prefix_run]
    rw [v2_run_data body _ c rfl (by simpa using hlen5.symm) hbody_ne
      (fun _ => hhead) hbytes]
    dsimp only
    have hxor : STK500v2.xorList (STK500v2.MESSAGE_START :: s :: body.length / 256 ::
        body.length % 256 :: STK500v2.TOKEN :: (body ++ [c])) =
        STK500v2.MESSAGE_START ^^^ s ^^^ body.length / 256 ^^^ body.length % 256 ^^^
          STK500v2.TOKEN ^^^ (STK500v2.xorList body ^^^ c) := by
      rw [xorList_cons, xorList_cons, xorList_cons, xorList_cons, xorList_cons,
        xorList_append]
      have h2 : STK500v2.xorList [c] = c := by simp [STK500v2.xorList]
      rw [h2]
      simp [Nat.xor_assoc]
    rw [hxor]
    simp
  refine ⟨?_, ?_, hrecv, ?_⟩
  · unfold STK500v2.sendFrame
    rw [List.getLast?_concat, List.dropLast_concat]
  · unfold STK500v2.sendFrame
    rw [List.dropLast_concat]
  · have hframe : STK500v2.sendFrame s body =
        ([STK500v2.MESSAGE_START, s, body.length / 256, body.length % 256,
          STK500v2.TOKEN] ++ body) ++
          [STK500v2.xorList ([STK500v2.MESSAGE_START, s, body.length / 256,
            body.length % 256, STK500v2.TOKEN] ++ body)] := by
      unfold STK500v2.sendFrame
      rfl
    rw [hframe, hrecv]
    rw [xorList_append]
    have hsing : ∀ x : Nat, STK500v2.xorList [x] = x := fun x => by
      simp [STK500v2.xorList]
    rw [hsing, Nat.xor_self]
    simp

/-- C7 witness: the receiver accepts the sender's own frame for sequence
number 1 and body CMD_SIGN_ON echo with OK status. -/
theorem c7_stk500v2_checksum_witness :
    STK500v2.run none (STK500v2.initSt 1) (STK500v2.sendFrame 1 [0x11, 0]) =
      STK500v2.RunOut.resolve [0x11, 0] :=
  (c7_stk500v2_checksum 1 [0x11, 0] (by decide) (by decide) (by decide)
    (by decide)).2.2.2

theorem firstSyncIdx_eq_some (data : List Nat) :
    ∀ k, data[k]? = some 0x14 → (∀ j < k, data[j]? ≠ some 0x14) →
      STK500v1.firstSyncIdx data = some k := by
  induction data with
  | nil => intro k hk _; simp at hk
  | cons b rest ih =>
    intro k hk hfirst
    cases k with
    | zero =>
      simp at hk
      simp [STK500v1.firstSyncIdx, hk]
    | succ k =>
      have hb : b ≠ 0x14 := by
        have := hfirst 0 (Nat.succ_pos k)
        simpa using this
      simp only [STK500v1.firstSyncIdx, if_neg hb]
      rw [ih k (by simpa using hk)
        (fun j hj => by
          have := hfirst (j + 1) (by omega)
          simpa using this)]
      rfl

/-- C8 (corrected).  The claim says the receiver accumulates every byte
from the first IN_SYNC onward; in the chunk [0x00, 0x14, 0x10] with
expected length 2 the IN_SYNC sits at index 1, the source slices
data.slice(1, 3 - 1), keeping only [0x14] and dropping the trailing 0x10,
so the receiver does not resolve with [0x14, 0x10] and instead times
out. -/
theorem c8_receiver_counterexample :
    STK500v1.runRecv 2 { started := false, buffer := [] } [[0x00, 0x14, 0x10]] =
        STK500v1.RecvOut.timeout ∧
      STK500v1.runRecv 2 { started := false, buffer := [] } [[0x00, 0x14, 0x10]] ≠
        STK500v1.RecvOut.done [0x14, 0x10] := by
  decide

/-- C8 (amended): the STK500v1 receiver discards all bytes preceding the
first IN_SYNC byte of a chunk, but within that chunk it keeps only the
bytes from the IN_SYNC position k up to position length - k (the final k
bytes of that chunk are dropped by data.slice(k, data.length - k));
subsequent chunks are appended in full; the receiver resolves when
exactly the expected length has accumulated, raises an overflow error
beyond it, and times out if the stream ends before completion. -/
theorem c8_receiver_amended (respLen k : Nat) (data : List Nat)
    (hk : data[k]? = some 0x14)
    (hfirst : ∀ j < k, data[j]? ≠ some 0x14) :
    (STK500v1.handleChunk respLen { started := false, buffer := [] } data =
      (if respLen < ((data.take (data.length - k)).drop k).length then .overflow
       else if ((data.take (data.length - k)).drop k).length = respLen then
         .done ((data.take (data.length - k)).drop k)
       else .cont { started := true,
                    buffer := (data.take (data.length - k)).drop k })) ∧
    (∀ (buffer data' : List Nat),
      STK500v1.handleChunk respLen { started := true, buffer := buffer } data' =
        (if respLen < (buffer ++ data').length then .overflow
         else if (buffer ++ data').length = respLen then .done (buffer ++ data')
         else .cont { started := true, buffer := buffer ++ data' })) ∧
    (∀ st : STK500v1.RecvSt, STK500v1.runRecv respLen st [] = .timeout) := by
  refine ⟨?_, ?_, ?_⟩
  · unfold STK500v1.handleChunk
    rw [firstSyncIdx_eq_some data k hk hfirst]
    simp
  · intro buffer data'
    unfold STK500v1.handleChunk
    simp
  · intro st
    rfl

/-- C8 witness: the amended per-chunk law at the chunk [0x00, 0x14, 0x10]
with expected length 2: index 1 holds the IN_SYNC, only [0x14] is kept. -/
theorem c8_receiver_amended_witness :
    STK500v1.handleChunk 2 { started := false, buffer := [] } [0x00, 0x14, 0x10] =
      STK500v1.ChunkOut.cont { started := true, buffer := [0x14] } := by
  have h := (c8_receiver_amended 2 1 [0x00, 0x14, 0x10] (by decide)
    (by decide)).1
  simpa using h

theorem mem_attempted_first {α : Type} [DecidableEq α] (ok : α → Bool) (x : α) :
    ∀ (l1 l2 : List α), x ∉ l1 →
      (x ∈ Bootload.attempted ok (l1 ++ x :: l2) ↔ ∀ s ∈ l1, ok s = true) := by
  intro l1
  induction l1 with
  | nil =>
    intro l2 _
    simp only [List.nil_append, Bootload.attempted]
    constructor
    · intro _ s hs; simp at hs
    · intro _
      by_cases h : ok x
      · simp [h]
      · simp [h]
  | cons a l1 ih =>
    intro l2 hx
    have hxa : x ≠ a := by
      intro h; exact hx (by simp [h])
    have hxl1 : x ∉ l1 := fun h => hx (by simp [h])
    simp only [List.cons_append, Bootload.attempted]
    by_cases h : ok a
    · rw [if_pos h]
      constructor
      · intro hmem s hs
        rcases List.mem_cons.mp hs with rfl | hs'
        · exact h
        · rcases List.mem_cons.mp hmem with rfl | hmem'
          · exact absurd rfl hxa
          · exact (ih l2 hxl1).mp hmem' s hs'
      · intro hall
        exact List.mem_cons_of_mem a
          ((ih l2 hxl1).mpr (fun s hs => hall s (by simp [hs])))
    · rw [if_neg h]
      constructor
      · intro hmem
        rcases List.mem_singleton.mp hmem with rfl
        exact absurd rfl hxa
      · intro hall
        exact absurd (hall a (by simp)) h

/-- C2 (corrected).  The claim says each engine still attempts
leave-programming-mode or exit-bootloader when a step after entering
programming mode raises; with the verify step failing, every engine's
attempted-call prefix contains the enter-programming step (for AVR109,
init, whose last awaited call is enterProgrammingMode) and the run fails,
yet the leave or exit step is never attempted, because none of the three
bootload methods has a try, catch or finally. -/
theorem c2_no_leave_on_error_counterexample :
    (Bootload.StepV1.enterProgmode ∈
        Bootload.attempted (fun s => decide (s ≠ .verify)) Bootload.stepsV1 ∧
      Bootload.runOk (fun s => decide (s ≠ .verify)) Bootload.stepsV1 = false ∧
      Bootload.StepV1.exitProgmode ∉
        Bootload.attempted (fun s => decide (s ≠ .verify)) Bootload.stepsV1) ∧
    (Bootload.StepV2.enterProgmode ∈
        Bootload.attempted (fun s => decide (s ≠ .verify)) Bootload.stepsV2 ∧
      Bootload.runOk (fun s => decide (s ≠ .verify)) Bootload.stepsV2 = false ∧
      Bootload.StepV2.exitProgmode ∉
        Bootload.attempted (fun s => decide (s ≠ .verify)) Bootload.stepsV2) ∧
    (Bootload.StepA.init ∈
        Bootload.attempted (fun s => decide (s ≠ .verify)) Bootload.stepsA ∧
      Bootload.runOk (fun s => decide (s ≠ .verify)) Bootload.stepsA = false ∧
      Bootload.StepA.leaveProgMode ∉
        Bootload.attempted (fun s => decide (s ≠ .verify)) Bootload.stepsA ∧
      Bootload.StepA.exitBootloader ∉
        Bootload.attempted (fun s => decide (s ≠ .verify)) Bootload.stepsA) := by
  decide

/-- C2 (amended): no engine attempts leave-programming-mode or
exit-bootloader on a fatal-error path; the leave step is attempted exactly
when every step before it (reset, sync, signature check, device setup,
enter programming mode, upload, verify) succeeded, so any fatal error
after entering programming mode propagates with programming mode still
entered. -/
theorem c2_leave_only_on_success :
    (∀ ok : Bootload.StepV1 → Bool,
      (Bootload.StepV1.exitProgmode ∈ Bootload.attempted ok Bootload.stepsV1 ↔
        ∀ s ∈ [Bootload.StepV1.reset, .sync1, .sync2, .sync3,
          .verifySignature, .setOptions, .enterProgmode, .upload, .verify],
          ok s = true)) ∧
    (∀ ok : Bootload.StepV2 → Bool,
      (Bootload.StepV2.exitProgmode ∈ Bootload.attempted ok Bootload.stepsV2 ↔
        ∀ s ∈ [Bootload.StepV2.reset, .sync, .verifySignature,
          .enterProgmode, .upload, .verify], ok s = true)) ∧
    (∀ ok : Bootload.StepA → Bool,
      (Bootload.StepA.leaveProgMode ∈ Bootload.attempted ok Bootload.stepsA ↔
        ∀ s ∈ [Bootload.StepA.enterBootloader, .sync, .init, .chipErase,
          .program, .verify], ok s = true)) := by
  refine ⟨?_, ?_, ?_⟩
  · intro ok
    have h := mem_attempted_first ok Bootload.StepV1.exitProgmode
      [Bootload.StepV1.reset, .sync1, .sync2, .sync3, .verifySignature,
        .setOptions, .enterProgmode, .upload, .verify] [] (by decide)
    exact h
  · intro ok
    have h := mem_attempted_first ok Bootload.StepV2.exitProgmode
      [Bootload.StepV2.reset, .sync, .verifySignature, .enterProgmode,
        .upload, .verify] [] (by decide)
    exact h
  · intro ok
    have h := mem_attempted_first ok Bootload.StepA.leaveProgMode
      [Bootload.StepA.enterBootloader, .sync, .init, .chipErase, .program,
        .verify] [.exitBootloader, .restorePort] (by decide)
    exact h

/-- C9 (corrected).  The claim says a failed sync attempt is retried only
on a receive timeout; here the first STK500v1 (and STK500v2) attempt
fails with a response-data mismatch, which is not a timeout, yet the loop
retries and the second attempt makes sync succeed instead of the error
escaping. -/
theorem c9_retry_any_error_counterexample :
    STK500v1.syncRun
        (fun i => if i = 0 then .error (.mismatch [20, 16] [20, 21])
          else .ok [20, 16]) 3 0 = .ok [20, 16] ∧
      isTimeoutErr (.mismatch [20, 16] [20, 21]) = false ∧
      STK500v2.syncRun
        (fun i => if i = 0 then .error (.mismatch [17, 0] [17, 192])
          else .ok [17, 0]) 5 0 = .ok [17, 0] := by
  refine ⟨rfl, rfl, rfl⟩

/-- C9 (amended): the STK500v1 and STK500v2 sync loops retry on ANY error
(their catch clauses never inspect the error), while only the AVR109 sync
loop restricts retry to receive-timeout errors: a non-timeout error
escapes it immediately, and a timeout error with count at most 5 leads to
another attempt. -/
theorem c9_sync_retry_policy :
    (∀ (oracle : Nat → Except SErr (List Nat)) (n idx : Nat) (e : SErr),
      oracle idx = .error e →
        STK500v1.syncRun oracle (n + 2) idx =
          STK500v1.syncRun oracle (n + 1) (idx + 1)) ∧
    (∀ (oracle : Nat → Except SErr (List Nat)) (n idx : Nat) (e : SErr),
      oracle idx = .error e →
        STK500v2.syncRun oracle (n + 2) idx =
          STK500v2.syncRun oracle (n + 1) (idx + 1)) ∧
    (∀ (oracle : Nat → Except SErr (List Nat)) (count : Nat) (e : SErr),
      oracle count = .error e → isTimeoutErr e = false →
        AVR109.syncRun oracle count = .error e) ∧
    (∀ (oracle : Nat → Except SErr (List Nat)) (count : Nat) (e : SErr),
      oracle count = .error e → isTimeoutErr e = true → count ≤ 5 →
        AVR109.syncRun oracle count = AVR109.syncRun oracle (count + 1)) := by
  refine ⟨?_, ?_, ?_, ?_⟩
  · intro oracle n idx e h
    simp [STK500v1.syncRun, h]
  · intro oracle n idx e h
    simp [STK500v2.syncRun, h]
  · intro oracle count e h he
    rw [AVR109.syncRun]
    simp [h, he]
  · intro oracle count e h he hcount
    rw [AVR109.syncRun]
    simp [h, he]
    omega

/-- C9 witness: the amended retry policy evaluated at concrete oracles:
an STK500v1 failure at attempt zero proceeds to the next attempt, and a
non-timeout AVR109 failure escapes immediately. -/
theorem c9_sync_retry_policy_witness :
    STK500v1.syncRun (fun _ => .error (.mismatch [] [])) 3 0 =
        STK500v1.syncRun (fun _ => .error (.mismatch [] [])) 2 1 ∧
      AVR109.syncRun (fun _ => .error (.mismatch [] [])) 0 =
        .error (.mismatch [] []) :=
  ⟨c9_sync_retry_policy.1 (fun _ => .error (.mismatch [] [])) 1 0
      (.mismatch [] []) rfl,
    c9_sync_retry_policy.2.2.1 (fun _ => .error (.mismatch [] [])) 0
      (.mismatch [] []) rfl rfl⟩

theorem runCmd_noLen (o : AVR109.CmdOpts) (hlen : o.len = 0)
    (hnull : o.readUntilNull = false) (resp : List Nat) :
    AVR109.runCmd o resp = .ok resp ↔
      (resp.getD 0 0 = AVR109.RES_EMPTY ∨ resp.getD 0 0 = AVR109.RES_UNKNOWN) := by
  unfold AVR109.runCmd
  rw [if_pos ⟨hlen, hnull⟩]
  dsimp only
  by_cases hcond : resp.getD 0 0 ≠ AVR109.RES_EMPTY ∧
      resp.getD 0 0 ≠ AVR109.RES_UNKNOWN
  · rw [if_pos hcond]
    constructor
    · intro h; exact absurd h (by simp)
    · intro h
      rcases h with h | h
      · exact absurd h hcond.1
      · exact absurd h hcond.2
  · rw [if_neg hcond]
    constructor
    · intro _
      by_cases h1 : resp.getD 0 0 = AVR109.RES_EMPTY
      · exact Or.inl h1
      · refine Or.inr ?_
        by_contra h2
        exact hcond ⟨h1, h2⟩
    · intro _
      rfl

/-- C10 (confirmed): every AVR109 command issued with no expected payload
length and no read-until-null (enter and leave programming mode, set
address, select device type, chip erase, block load, page write and
byte-mode flash writes) resolves as success exactly when the first reply
byte is RES_EMPTY (carriage return) or RES_UNKNOWN (question mark, the
command-unsupported marker), the resolved data being returned unchanged
in both cases, and raises only when the first byte is neither; an
unsupported command is therefore indistinguishable from a successful one
at the engine interface. -/
theorem c10_unsupported_like_success (addr code half dataByte memFlag : Nat)
    (t1 t2 : Option Nat) (page : List Nat) :
    ∀ o ∈ [AVR109.enterProgModeOpts, AVR109.leaveProgModeOpts,
      AVR109.setAddrOpts addr, AVR109.selectDeviceOpts code,
      AVR109.chipEraseOpts t1, AVR109.blockLoadOpts page memFlag,
      AVR109.issuePageWriteOpts t2, AVR109.writeProgMemOpts half dataByte],
      o.len = 0 ∧ o.readUntilNull = false ∧
      (∀ resp : List Nat,
        AVR109.runCmd o resp = .ok resp ↔
          (resp.getD 0 0 = AVR109.RES_EMPTY ∨
            resp.getD 0 0 = AVR109.RES_UNKNOWN)) ∧
      AVR109.runCmd o [AVR109.RES_UNKNOWN] = .ok [AVR109.RES_UNKNOWN] ∧
      AVR109.runCmd o [AVR109.RES_EMPTY] = .ok [AVR109.RES_EMPTY] := by
  intro o ho
  have hlen : o.len = 0 := by
    fin_cases ho <;> rfl
  have hnull : o.readUntilNull = false := by
    fin_cases ho <;> rfl
  refine ⟨hlen, hnull, runCmd_noLen o hlen hnull, ?_, ?_⟩
  · exact (runCmd_noLen o hlen hnull _).mpr (Or.inr (by decide))
  · exact (runCmd_noLen o hlen hnull _).mpr (Or.inl (by decide))

/-- C10 witness: a question-mark reply to ENTER_PROG_MODE resolves as
success with the data returned unchanged. -/
theorem c10_unsupported_like_success_witness :
    AVR109.runCmd AVR109.enterProgModeOpts [AVR109.RES_UNKNOWN] =
      .ok [AVR109.RES_UNKNOWN] :=
  (c10_unsupported_like_success 0 0 0 0 0 none none []
    AVR109.enterProgModeOpts (by simp)).2.2.2.1

theorem openStep_baud (port : Dispatcher.Port) :
    (Dispatcher.openStep port).1.baudRate = port.baudRate := by
  unfold Dispatcher.openStep
  split <;> rfl

theorem restoreStep_baud (eb : Nat) (np : Dispatcher.Port) :
    (Dispatcher.restoreStep eb np).1.baudRate = eb := by
  unfold Dispatcher.restoreStep
  split
  · rfl
  · next h => simpa using h

/-- C3 (confirmed): whenever upload returns successfully, the baud rate
of the returned port equals the baud rate the input port had at entry,
for every engine behavior, including engines that change the baud
mid-session or hand back a replacement port. -/
theorem c3_baud_restored
    (avrEngine : String → Dispatcher.Port →
      Except Dispatcher.UErr Dispatcher.Port × List Dispatcher.PortOp)
    (espEngine : Dispatcher.Port →
      Except Dispatcher.UErr Dispatcher.Port × List Dispatcher.PortOp)
    (cfg : Dispatcher.Config) (port res : Dispatcher.Port)
    (ops : List Dispatcher.PortOp)
    (h : Dispatcher.upload avrEngine espEngine cfg port = (.ok res, ops)) :
    res.baudRate = port.baudRate := by
  unfold Dispatcher.upload at h
  by_cases hbin : cfg.hasBin = false
  · rw [if_pos hbin] at h
    simp at h
  · rw [if_neg hbin] at h
    rcases hts : Dispatcher.toolStep avrEngine espEngine cfg
        (Dispatcher.setSpeedStep cfg.speed (Dispatcher.openStep port).1).1 with
      ⟨res', ops'⟩
    rw [hts] at h
    cases res' with
    | error e => simp at h
    | ok np =>
      simp only [Prod.mk.injEq, Except.ok.injEq] at h
      rw [← h.1, restoreStep_baud, openStep_baud]

/-- C3 witness: an engine that swaps the port and leaves it at 9999 baud
still yields a returned port at the entry baud 115200. -/
theorem c3_baud_restored_witness :
    (⟨99, true, 115200⟩ : Dispatcher.Port).baudRate =
      (⟨0, true, 115200⟩ : Dispatcher.Port).baudRate :=
  c3_baud_restored
    (fun _ _ => (.ok ⟨99, true, 9999⟩, [.write]))
    (fun p => (.ok p, []))
    ⟨true, some 57600, "avr", some "atmega328p", false⟩
    ⟨0, true, 115200⟩ ⟨99, true, 115200⟩
    [.updateBaud 57600, .write, .updateBaud 115200] rfl

/-- C5 (corrected).  The claim says upload raises the unknown-CPU error
before performing any operation on the port; with cpu atmega420, a closed
port and a bootloader baud differing from the port's, the dispatcher
opens the port and applies the bootloader baud before the avr router's
getCpuData throws, so the recorded port operations are not empty. -/
theorem c5_port_ops_before_error_counterexample :
    Dispatcher.upload (fun _ p => (.ok p, [])) (fun p => (.ok p, []))
        ⟨true, some 57600, "avr", some "atmega420", false⟩ ⟨0, false, 115200⟩ =
      (.error (.unknownCpu "atmega420"),
        [Dispatcher.PortOp.openPort, .updateBaud 57600]) ∧
    ([Dispatcher.PortOp.openPort, .updateBaud 57600] ≠ []) := by
  exact ⟨rfl, by decide⟩

/-- C5 (amended): for every CPU identifier absent from the catalog and a
tool of avr or avrdude, isSupported returns false, and upload fails with
the unknown-CPU error before anything is written to the port (the
recorded operations never include a write), although the dispatcher has
already opened the port and applied the bootloader baud by then. -/
theorem c5_unknown_cpu (cpu : String)
    (hcpu : Dispatcher.cpuDefs.lookup cpu = none) :
    Dispatcher.isSupported "avr" cpu = false ∧
    Dispatcher.isSupported "avrdude" cpu = false ∧
    ∀ (avrEngine : String → Dispatcher.Port →
        Except Dispatcher.UErr Dispatcher.Port × List Dispatcher.PortOp)
      (espEngine : Dispatcher.Port →
        Except Dispatcher.UErr Dispatcher.Port × List Dispatcher.PortOp)
      (cfg : Dispatcher.Config) (port : Dispatcher.Port),
      cfg.hasBin = true → (cfg.tool = "avr" ∨ cfg.tool = "avrdude") →
      cfg.cpu = some cpu →
      (Dispatcher.upload avrEngine espEngine cfg port).1 =
          .error (.unknownCpu cpu) ∧
        Dispatcher.PortOp.write ∉
          (Dispatcher.upload avrEngine espEngine cfg port).2 := by
  have hget : Dispatcher.getCpuData (some cpu) =
      .error (.unknownCpu cpu) := by
    unfold Dispatcher.getCpuData
    simp [hcpu]
  have hsup : Dispatcher.avrIsSupported cpu = false := by
    unfold Dispatcher.avrIsSupported
    rw [hget]
  refine ⟨?_, ?_, ?_⟩
  · unfold Dispatcher.isSupported
    simp [hsup]
  · unfold Dispatcher.isSupported
    simp [hsup]
  · intro avrEngine espEngine cfg port hbin htool hcfgcpu
    have hts : Dispatcher.toolStep avrEngine espEngine cfg
        (Dispatcher.setSpeedStep cfg.speed (Dispatcher.openStep port).1).1 =
        (.error (.unknownCpu cpu), []) := by
      unfold Dispatcher.toolStep
      rw [if_pos htool]
      unfold Dispatcher.avrUpload
      rw [hcfgcpu, hget]
    have hup : Dispatcher.upload avrEngine espEngine cfg port =
        (.error (.unknownCpu cpu),
          (Dispatcher.openStep port).2 ++
            (Dispatcher.setSpeedStep cfg.speed (Dispatcher.openStep port).1).2 ++
            []) := by
      unfold Dispatcher.upload
      rw [if_neg (by simp [hbin]), hts]
    rw [hup]
    refine ⟨rfl, ?_⟩
    intro hmem
    simp only [List.append_nil, List.mem_append] at hmem
    rcases hmem with hmem | hmem
    · unfold Dispatcher.openStep at hmem
      split at hmem <;> simp at hmem
    · unfold Dispatcher.setSpeedStep at hmem
      rcases hs : cfg.speed with _ | s
      · rw [hs] at hmem
        simp at hmem
      · rw [hs] at hmem
        simp only at hmem
        split at hmem <;> simp at hmem

/-- C5 witness: the amended statement at the literal inputs of the spec's
negative scenario, cpu atmega420 with tool avr. -/
theorem c5_unknown_cpu_witness :
    Dispatcher.isSupported "avr" "atmega420" = false ∧
    (Dispatcher.upload (fun _ p => (.ok p, [])) (fun p => (.ok p, []))
        ⟨true, some 57600, "avr", some "atmega420", false⟩
        ⟨0, false, 115200⟩).1 = .error (.unknownCpu "atmega420") :=
  ⟨(c5_unknown_cpu "atmega420" (by decide)).1,
    ((c5_unknown_cpu "atmega420" (by decide)).2.2
      (fun _ p => (.ok p, [])) (fun p => (.ok p, []))
      ⟨true, some 57600, "avr", some "atmega420", false⟩
      ⟨0, false, 115200⟩ rfl (Or.inl rfl) rfl).1⟩

theorem updateImageFlashParams_keep (chip : ESPLoader.EspChip)
    (img : List Nat) (addr : Nat) :
    ESPLoader.updateImageFlashParams chip img addr "keep" "keep" "keep" =
      .ok (img, []) := by
  unfold ESPLoader.updateImageFlashParams
  split
  · rfl
  · split
    · rfl
    · rw [if_pos ⟨rfl, rfl, rfl⟩]

theorem md5CheckActs_nonlog_filter (stub : Bool) (name : String)
    (o : Nat → Nat → String) (addr raw : Nat) (calcS : String) :
    (ESPLoader.md5CheckActs stub name o addr raw calcS).filter
        (fun a => !(ESPLoader.isLogAct a)) =
      (if stub = true ∨ name ≠ "ESP8266" then
        [ESPLoader.EspAct.md5Request addr raw] else []) := by
  unfold ESPLoader.md5CheckActs
  by_cases hc : stub = true ∨ name ≠ "ESP8266"
  · rw [if_pos hc, if_pos hc]
    split <;> simp [ESPLoader.isLogAct]
  · rw [if_neg hc, if_neg hc]
    simp

theorem md5CheckActs_md5_filter (stub : Bool) (name : String)
    (o : Nat → Nat → String) (addr raw : Nat) (calcS : String) :
    (ESPLoader.md5CheckActs stub name o addr raw calcS).filter
        ESPLoader.isMd5Act =
      (if stub = true ∨ name ≠ "ESP8266" then
        [ESPLoader.EspAct.md5Request addr raw] else []) := by
  unfold ESPLoader.md5CheckActs
  by_cases hc : stub = true ∨ name ≠ "ESP8266"
  · rw [if_pos hc, if_pos hc]
    split <;> simp [ESPLoader.isMd5Act]
  · rw [if_neg hc, if_neg hc]
    simp

theorem preActs_md5_filter (chip : ESPLoader.EspChip) (stub : Bool)
    (fws : Nat) (deflate : List Nat → List Nat) (compress : Bool)
    (address : Nat) (image : List Nat) :
    (ESPLoader.preActs chip stub fws deflate compress address image).filter
        ESPLoader.isMd5Act = [] := by
  rw [List.filter_eq_nil_iff]
  intro a ha
  cases a with
  | md5Request x y =>
    exfalso
    unfold ESPLoader.preActs ESPLoader.blockActs at ha
    split at ha <;> split at ha <;> simp at ha
  | eraseFlash => simp [ESPLoader.isMd5Act]
  | flashBegin e n b o => simp [ESPLoader.isMd5Act]
  | deflBegin w n b o => simp [ESPLoader.isMd5Act]
  | flashData d q => simp [ESPLoader.isMd5Act]
  | deflData d q => simp [ESPLoader.isMd5Act]
  | readRegPing r => simp [ESPLoader.isMd5Act]
  | logLine s => simp [ESPLoader.isMd5Act]
  | flashEnd v => simp [ESPLoader.isMd5Act]
  | deflEnd v => simp [ESPLoader.isMd5Act]

theorem processFile_keep (chip : ESPLoader.EspChip) (stub : Bool) (fws : Nat)
    (md5 : List Nat → String) (deflate : List Nat → List Nat)
    (o : Nat → Nat → String) (compress : Bool) (address : Nat)
    (fileData : List Nat) :
    ESPLoader.processFile chip stub fws md5 deflate o "keep" "keep" "keep"
        compress address fileData =
      .ok (ESPLoader.preActs chip stub fws deflate compress address
          (ESPLoader.padTo fileData 4 0xFF) ++
        ESPLoader.md5CheckActs stub chip.name o address
          (ESPLoader.padTo fileData 4 0xFF).length
          (md5 (ESPLoader.padTo fileData 4 0xFF))) := by
  unfold ESPLoader.processFile
  dsimp only
  rw [updateImageFlashParams_keep]
  rfl

theorem writeFlashLoop_keep_props (chip : ESPLoader.EspChip) (stub : Bool)
    (fws : Nat) (md5 : List Nat → String) (deflate : List Nat → List Nat)
    (compress : Bool) (o1 o2 : Nat → Nat → String) :
    ∀ files : List (Nat × List Nat), (∀ f ∈ files, f.2 ≠ []) →
      ∃ tr1 tr2,
        ESPLoader.writeFlashLoop chip stub fws md5 deflate o1
            "keep" "keep" "keep" compress files = .ok tr1 ∧
        ESPLoader.writeFlashLoop chip stub fws md5 deflate o2
            "keep" "keep" "keep" compress files = .ok tr2 ∧
        tr1.filter (fun a => !(ESPLoader.isLogAct a)) =
          tr2.filter (fun a => !(ESPLoader.isLogAct a)) ∧
        tr1.filter ESPLoader.isMd5Act =
          (if stub = true ∨ chip.name ≠ "ESP8266" then
            files.map (fun f =>
              ESPLoader.EspAct.md5Request f.1 (ESPLoader.padTo f.2 4 0xFF).length)
          else []) := by
  intro files
  induction files with
  | nil =>
    intro _
    refine ⟨[], [], rfl, rfl, rfl, ?_⟩
    split <;> rfl
  | cons f rest ih =>
    intro hne
    obtain ⟨tr1, tr2, h1, h2, hlog, hmd5⟩ := ih (fun g hg => hne g (by simp [hg]))
    have hfne : f.2 ≠ [] := hne f (by simp)
    obtain ⟨address, fileData⟩ := f
    simp only at hfne
    refine ⟨ESPLoader.preActs chip stub fws deflate compress address
        (ESPLoader.padTo fileData 4 0xFF) ++
      ESPLoader.md5CheckActs stub chip.name o1 address
        (ESPLoader.padTo fileData 4 0xFF).length
        (md5 (ESPLoader.padTo fileData 4 0xFF)) ++ tr1,
      ESPLoader.preActs chip stub fws deflate compress address
        (ESPLoader.padTo fileData 4 0xFF) ++
      ESPLoader.md5CheckActs stub chip.name o2 address
        (ESPLoader.padTo fileData 4 0xFF).length
        (md5 (ESPLoader.padTo fileData 4 0xFF)) ++ tr2, ?_, ?_, ?_, ?_⟩
    · unfold ESPLoader.writeFlashLoop
      rw [if_neg hfne, processFile_keep, h1]
      rfl
    · unfold ESPLoader.writeFlashLoop
      rw [if_neg hfne, processFile_keep, h2]
      rfl
    · simp only [List.filter_append]
      rw [hlog, md5CheckActs_nonlog_filter, md5CheckActs_nonlog_filter]
    · simp only [List.filter_append]
      rw [hmd5, md5CheckActs_md5_filter, preActs_md5_filter]
      by_cases hc : stub = true ∨ chip.name ≠ "ESP8266"
      · rw [if_pos hc, if_pos hc, if_pos hc]
        simp
      · rw [if_neg hc, if_neg hc, if_neg hc]
        simp

theorem writeFlash_keep_eq (chip : ESPLoader.EspChip) (stub : Bool) (fws : Nat)
    (md5 : List Nat → String) (deflate : List Nat → List Nat)
    (o : Nat → Nat → String) (files : List (Nat × List Nat))
    (eraseAll compress : Bool) (tr : List ESPLoader.EspAct)
    (hloop : ESPLoader.writeFlashLoop chip stub fws md5 deflate o
      "keep" "keep" "keep" compress files = .ok tr) :
    ESPLoader.writeFlash chip stub fws md5 deflate o files
        "keep" "keep" "keep" eraseAll compress =
      .ok ((if stub ∧ eraseAll then [ESPLoader.EspAct.eraseFlash] else []) ++
        tr ++ [ESPLoader.EspAct.logLine "Leaving..."] ++
        (if stub then
          [ESPLoader.EspAct.flashBegin (chip.getEraseSize 0 0)
            ((0 + fws - 1) / fws) fws 0] ++
            (if compress then [ESPLoader.EspAct.deflEnd 1]
             else [ESPLoader.EspAct.flashEnd 1])
         else [])) := by
  unfold ESPLoader.writeFlash
  rw [if_neg (by simp)]
  dsimp only
  rw [hloop]
  rfl

/-- C4 (confirmed): in the ESP writeFlash loop with keep flash parameters,
after streaming each file the loader requests SPI_FLASH_MD5 over the raw
pre-compression image (the 0xFF-padded file data, at the file's address
and with its padded length) exactly when IS_STUB is true or the detected
chip is not ESP8266; and the device's MD5 answer influences only log
output: the call never fails, and the non-log actions of the whole run
are identical for every device MD5 answer, so a mismatch is only logged
and never raises or aborts the upload. -/
theorem c4_esp_md5_logged_not_fatal (chip : ESPLoader.EspChip) (stub : Bool)
    (fws : Nat) (md5 : List Nat → String) (deflate : List Nat → List Nat)
    (files : List (Nat × List Nat)) (eraseAll compress : Bool)
    (hfws : 0 < fws) (hfiles : ∀ f ∈ files, f.2 ≠ []) :
    (∀ o : Nat → Nat → String, ∃ tr,
      ESPLoader.writeFlash chip stub fws md5 deflate o files
        "keep" "keep" "keep" eraseAll compress = .ok tr) ∧
    (∀ (o : Nat → Nat → String) (addr : Nat) (data : List Nat),
      (addr, data) ∈ files →
      ((ESPLoader.EspAct.md5Request addr (ESPLoader.padTo data 4 0xFF).length ∈
          ESPLoader.getActs (ESPLoader.writeFlash chip stub fws md5 deflate o
            files "keep" "keep" "keep" eraseAll compress)) ↔
        (stub = true ∨ chip.name ≠ "ESP8266"))) ∧
    (∀ o1 o2 : Nat → Nat → String,
      (ESPLoader.getActs (ESPLoader.writeFlash chip stub fws md5 deflate o1
          files "keep" "keep" "keep" eraseAll compress)).filter
          (fun a => !(ESPLoader.isLogAct a)) =
      (ESPLoader.getActs (ESPLoader.writeFlash chip stub fws md5 deflate o2
          files "keep" "keep" "keep" eraseAll compress)).filter
          (fun a => !(ESPLoader.isLogAct a))) := by
  refine ⟨?_, ?_, ?_⟩
  · intro o
    obtain ⟨tr, _, h1, _, _, _⟩ :=
      writeFlashLoop_keep_props chip stub fws md5 deflate compress o o
        files hfiles
    exact ⟨_, writeFlash_keep_eq chip stub fws md5 deflate o files
      eraseAll compress tr h1⟩
  · intro o addr data hmem
    obtain ⟨tr, _, h1, _, _, hmd5⟩ :=
      writeFlashLoop_keep_props chip stub fws md5 deflate compress o o
        files hfiles
    rw [writeFlash_keep_eq chip stub fws md5 deflate o files
      eraseAll compress tr h1]
    have htr : (ESPLoader.EspAct.md5Request addr
        (ESPLoader.padTo data 4 0xFF).length ∈
        ESPLoader.getActs (Except.ok
          ((if stub ∧ eraseAll then [ESPLoader.EspAct.eraseFlash] else []) ++
            tr ++ [ESPLoader.EspAct.logLine "Leaving..."] ++
            (if stub then
              [ESPLoader.EspAct.flashBegin (chip.getEraseSize 0 0)
                ((0 + fws - 1) / fws) fws 0] ++
                (if compress then [ESPLoader.EspAct.deflEnd 1]
                 else [ESPLoader.EspAct.flashEnd 1])
             else [])))) ↔
        ESPLoader.EspAct.md5Request addr
          (ESPLoader.padTo data 4 0xFF).length ∈ tr := by
      unfold ESPLoader.getActs
      simp only [List.mem_append, List.mem_singleton]
      constructor
      · rintro (((hx | hx) | hx) | hx)
        · split at hx <;> simp at hx
        · exact hx
        · simp at hx
        · split at hx
          · rcases List.mem_append.mp hx with hx | hx
            · simp at hx
            · split at hx <;> simp at hx
          · simp at hx
      · intro hx
        exact Or.inl (Or.inl (Or.inr hx))
    rw [htr]
    have hfilt : (ESPLoader.EspAct.md5Request addr
        (ESPLoader.padTo data 4 0xFF).length ∈ tr) ↔
        ESPLoader.EspAct.md5Request addr
          (ESPLoader.padTo data 4 0xFF).length ∈
          tr.filter ESPLoader.isMd5Act := by
      rw [List.mem_filter]
      simp [ESPLoader.isMd5Act]
    rw [hfilt, hmd5]
    constructor
    · intro hx
      by_cases hc : stub = true ∨ chip.name ≠ "ESP8266"
      · exact hc
      · rw [if_neg hc] at hx
        simp at hx
    · intro hc
      rw [if_pos hc]
      exact List.mem_map_of_mem
        (fun f => ESPLoader.EspAct.md5Request f.1
          (ESPLoader.padTo f.2 4 0xFF).length) hmem
  · intro o1 o2
    obtain ⟨tr1, tr2, h1, h2, hlog, _⟩ :=
      writeFlashLoop_keep_props chip stub fws md5 deflate compress o1 o2
        files hfiles
    rw [writeFlash_keep_eq chip stub fws md5 deflate o1 files
      eraseAll compress tr1 h1,
      writeFlash_keep_eq chip stub fws md5 deflate o2 files
      eraseAll compress tr2 h2]
    unfold ESPLoader.getActs
    simp only [List.filter_append]
    rw [hlog]

/-- C4 witness: a one-file run on an ESP32-shaped chip under the stub:
the SPI_FLASH_MD5 request over the raw 4-byte image is present, and it is
absent for a ROM-mode ESP8266-shaped chip. -/
theorem c4_esp_md5_logged_not_fatal_witness :
    (ESPLoader.EspAct.md5Request 0x1000
        (ESPLoader.padTo [0xE9, 1, 2, 3] 4 0xFF).length ∈
      ESPLoader.getActs (ESPLoader.writeFlash
        ⟨"ESP32", 0x1000, true, [], fun _ s => s⟩ true 0x4000
        (fun _ => "d41d") (fun l => l) (fun _ _ => "d41d")
        [(0x1000, [0xE9, 1, 2, 3])] "keep" "keep" "keep" false true)) ↔
      (true = true ∨ ("ESP32" : String) ≠ "ESP8266") :=
  (c4_esp_md5_logged_not_fatal ⟨"ESP32", 0x1000, true, [], fun _ s => s⟩
    true 0x4000 (fun _ => "d41d") (fun l => l)
    [(0x1000, [0xE9, 1, 2, 3])] false true (by decide)
    (by intro f hf; simp at hf; simp [hf])).2.1
    (fun _ _ => "d41d") 0x1000 [0xE9, 1, 2, 3] (by simp)
